import Mathlib

/-!
Verification development for the InfiLib learning-path generator
(`app.py`). Python strings are modelled as `List Char`; the stdlib
`json.loads` is modelled by an executable recursive-descent parser
(`json_loads`); the Streamlit session orchestration in `main` is modelled
as a step function over an explicit session state, with the external LLM,
the widget values and the chat box supplied as an environment. Unicode
whitespace beyond ASCII, `\uXXXX` surrogate pairing and non-string JSON
object data reaching Python-specific dynamic paths (non-string dict keys,
iteration over non-list containers) are outside the model: where the
source would iterate or index such off-schema data, the model raises
(reaches the surrounding `except` handler), matching the source on all
schema-shaped and near-schema data.
-/

set_option maxRecDepth 10000

namespace InfiLib

/-! ## Characters and Python string primitives -/

/-- Whitespace skipped by the JSON scanner (`json.loads`). -/
def jsonWs (c : Char) : Bool :=
  c = ' ' || c = '\t' || c = '\n' || c = '\r'

/-- Drop the JSON whitespace at the front of the input. -/
def skipWs : List Char → List Char
  | [] => []
  | c :: rest => if jsonWs c then skipWs rest else c :: rest

/-- ASCII whitespace stripped by Python `str.strip()` (the non-ASCII
Unicode spaces Python also strips never occur in the inputs modelled). -/
def isPyWs (c : Char) : Bool :=
  c = ' ' || c = '\t' || c = '\n' || c = '\r' || c = '\x0b' || c = '\x0c'

/-- Python `text.strip()`. -/
def pyStrip (s : List Char) : List Char :=
  ((s.dropWhile isPyWs).reverse.dropWhile isPyWs).reverse

/-- Index of the first occurrence of `c`, if any (`str.find` before its
`-1` encoding). -/
def findIdx (c : Char) : List Char → Option Nat
  | [] => none
  | a :: rest => if a = c then some 0 else (findIdx c rest).map (· + 1)

/-- Index of the last occurrence of `c`, if any (`str.rfind` before its
`-1` encoding). -/
def rfindIdx (c : Char) : List Char → Option Nat
  | [] => none
  | a :: rest =>
    match rfindIdx c rest with
    | some i => some (i + 1)
    | none => if a = c then some 0 else none

/-- Python `text.find(c)`: the index of the first occurrence, `-1` when absent. -/
def pyFind (s : List Char) (c : Char) : Int :=
  match findIdx c s with
  | some i => (i : Int)
  | none => -1

/-- Python `text.rfind(c)`: the index of the last occurrence, `-1` when absent. -/
def pyRFind (s : List Char) (c : Char) : Int :=
  match rfindIdx c s with
  | some i => (i : Int)
  | none => -1

/-- Python slice `text[a:b]` for the non-negative bounds that occur in
`extract_json_from_text` (there `a` is a found index and `b` is
`rfind + 1 ≥ 0`). -/
def pySliceTo (s : List Char) (a b : Int) : List Char :=
  (s.take b.toNat).drop a.toNat

/-- Whether `pat` is a leading segment of `s` (character-wise). -/
def leadMatch : List Char → List Char → Bool
  | [], _ => true
  | _ :: _, [] => false
  | a :: pat, b :: s => a = b && leadMatch pat s

/-- Python substring containment `needle in hay`. -/
def containsSub (needle : List Char) : List Char → Bool
  | [] => needle.isEmpty
  | c :: rest => leadMatch needle (c :: rest) || containsSub needle rest

/-- Python `sep.join(xs)`. -/
def joinSep (sep : List Char) : List (List Char) → List Char
  | [] => []
  | [x] => x
  | x :: y :: xs => x ++ sep ++ joinSep sep (y :: xs)

/-- Python dict lookup `d[k]` / `k in d` over an insertion-ordered
association list. -/
def jlookup {α : Type} (k : List Char) : List (List Char × α) → Option α
  | [] => none
  | (k', v) :: rest => if k' = k then some v else jlookup k rest

/-- Python dict assignment `d[k] = v`: an existing key keeps its position
and gets the new value, a new key is appended. -/
def dictSet {α : Type} (k : List Char) (v : α) :
    List (List Char × α) → List (List Char × α)
  | [] => [(k, v)]
  | (k', v') :: rest =>
    if k' = k then (k', v) :: rest else (k', v') :: dictSet k v rest

/-! ## JSON values and the model of `json.loads` -/

/-- A decoded JSON value as Python's `json` module produces it. Numbers
keep their source lexeme (no claim depends on numeric arithmetic);
objects are insertion-ordered key/value lists as Python dicts are. -/
inductive Json : Type where
  | null : Json
  | bool : Bool → Json
  | num : List Char → Json
  | str : List Char → Json
  | arr : List Json → Json
  | obj : List (List Char × Json) → Json

/-- Value of one hexadecimal digit. -/
def hexDigit? (c : Char) : Option Nat :=
  if '0' ≤ c ∧ c ≤ '9' then some (c.toNat - '0'.toNat)
  else if 'a' ≤ c ∧ c ≤ 'f' then some (c.toNat - 'a'.toNat + 10)
  else if 'A' ≤ c ∧ c ≤ 'F' then some (c.toNat - 'A'.toNat + 10)
  else none

/-- Prepend a character to the string being accumulated by `parseStringBody`. -/
def consFst (c : Char) : Option (List Char × List Char) → Option (List Char × List Char)
  | some (s, rest) => some (c :: s, rest)
  | none => none

/-- Body of a JSON string, after its opening quote: the decoded content
and the input after the closing quote. Control characters are rejected
(strict mode), the short escapes are decoded, and `\uXXXX` becomes the
scalar of that code unit (surrogate pairing is not modelled; no modelled
input uses `\u`). -/
def parseStringBody : List Char → Option (List Char × List Char)
  | [] => none
  | '"' :: rest => some ([], rest)
  | '\\' :: '"' :: rest => consFst '"' (parseStringBody rest)
  | '\\' :: '\\' :: rest => consFst '\\' (parseStringBody rest)
  | '\\' :: '/' :: rest => consFst '/' (parseStringBody rest)
  | '\\' :: 'b' :: rest => consFst (Char.ofNat 8) (parseStringBody rest)
  | '\\' :: 'f' :: rest => consFst (Char.ofNat 12) (parseStringBody rest)
  | '\\' :: 'n' :: rest => consFst '\n' (parseStringBody rest)
  | '\\' :: 'r' :: rest => consFst '\r' (parseStringBody rest)
  | '\\' :: 't' :: rest => consFst '\t' (parseStringBody rest)
  | '\\' :: 'u' :: a :: b :: c :: d :: rest =>
    match hexDigit? a, hexDigit? b, hexDigit? c, hexDigit? d with
    | some ha, some hb, some hc, some hd =>
      consFst (Char.ofNat (((ha * 16 + hb) * 16 + hc) * 16 + hd)) (parseStringBody rest)
    | _, _, _, _ => none
  | '\\' :: _ => none
  | c :: rest => if c.toNat < 32 then none else consFst c (parseStringBody rest)

/-- Exponent part of a number lexeme, if present at `r1`. -/
def numExpPart (r1 : List Char) : List Char × List Char :=
  match r1 with
  | e :: r' =>
    if e = 'e' ∨ e = 'E' then
      let signAndRest :=
        match r' with
        | c :: r'' => if c = '+' ∨ c = '-' then ([c], r'') else (([] : List Char), r')
        | [] => (([] : List Char), r')
      let es := signAndRest.2.takeWhile Char.isDigit
      let r3 := signAndRest.2.dropWhile Char.isDigit
      if es.isEmpty then (([] : List Char), r1) else (e :: signAndRest.1 ++ es, r3)
    else (([] : List Char), r1)
  | [] => (([] : List Char), r1)

/-- Fraction and exponent after the integer digits `ds` of a number lexeme. -/
def numTail (ds : List Char) (r : List Char) : List Char × List Char :=
  let fracAndRest :=
    match r with
    | '.' :: r' =>
      let fs := r'.takeWhile Char.isDigit
      if fs.isEmpty then (([] : List Char), r)
      else ('.' :: fs, r'.dropWhile Char.isDigit)
    | _ => (([] : List Char), r)
  let expAndRest := numExpPart fracAndRest.2
  (ds ++ fracAndRest.1 ++ expAndRest.1, expAndRest.2)

/-- Unsigned JSON number lexeme at `s`: a leading `0` ends the integer
part (so `0123` lexes as `0` and leaves `123`, which then fails the
end-of-document check exactly as `json.loads("0123")` does). -/
def parseUNumber (s : List Char) : Option (List Char × List Char) :=
  match s with
  | '0' :: r => some (numTail ['0'] r)
  | c :: r =>
    if c.isDigit then some (numTail (c :: r.takeWhile Char.isDigit) (r.dropWhile Char.isDigit))
    else none
  | [] => none

/-- JSON number lexeme (optionally signed) at `s`. -/
def parseNumber (s : List Char) : Option (List Char × List Char) :=
  match s with
  | '-' :: r => (parseUNumber r).map fun p => ('-' :: p.1, p.2)
  | _ => parseUNumber s

/-- The rest of the input after a fixed keyword tail (`rue` of `true`,
`ull` of `null`, ...), or `none` when the input does not continue with it. -/
def afterLead : List Char → List Char → Option (List Char)
  | [], s => some s
  | _ :: _, [] => none
  | p :: ps, c :: cs => if c = p then afterLead ps cs else none

mutual

/-- One JSON value at `s` (whitespace first), as the `json.loads` scanner
reads it: the value and the remaining input. The value is dispatched on
its first character — object, array, string, the literals
`true`/`false`/`null`, the float constants `NaN`/`Infinity`/`-Infinity`
that Python accepts by default, or a number. The fuel only bounds the
recursion; `json_loads` supplies more than any input can consume. -/
def parseValue : Nat → List Char → Option (Json × List Char)
  | 0, _ => none
  | Nat.succ fuel, s =>
    match skipWs s with
    | [] => none
    | c :: rest =>
      if c = '{' then parseObjectBody fuel [] rest
      else if c = '[' then parseArrayBody fuel [] rest
      else if c = '"' then (parseStringBody rest).map fun p => (Json.str p.1, p.2)
      else if c = 't' then
        match afterLead (("rue").toList) rest with
        | some r => some (Json.bool true, r)
        | none => none
      else if c = 'f' then
        match afterLead (("alse").toList) rest with
        | some r => some (Json.bool false, r)
        | none => none
      else if c = 'n' then
        match afterLead (("ull").toList) rest with
        | some r => some (Json.null, r)
        | none => none
      else if c = 'N' then
        match afterLead (("aN").toList) rest with
        | some r => some (Json.num (("NaN").toList), r)
        | none => none
      else if c = 'I' then
        match afterLead (("nfinity").toList) rest with
        | some r => some (Json.num (("Infinity").toList), r)
        | none => none
      else if c = '-' then
        match afterLead (("Infinity").toList) rest with
        | some r => some (Json.num (("-Infinity").toList), r)
        | none => (parseNumber (c :: rest)).map fun p => (Json.num p.1, p.2)
      else (parseNumber (c :: rest)).map fun p => (Json.num p.1, p.2)

/-- Members of a JSON object after its `{` (or after a `,`), with the
members decoded so far: expects `}` closing an empty object, else a
quoted key, `:`, a value, then `,` more members or `}`. Duplicate keys
keep their first position and the last value, as a Python dict does. -/
def parseObjectBody : Nat → List (List Char × Json) → List Char → Option (Json × List Char)
  | 0, _, _ => none
  | Nat.succ fuel, acc, s =>
    match skipWs s with
    | '}' :: rest => if acc.isEmpty then some (Json.obj [], rest) else none
    | '"' :: rest =>
      match parseStringBody rest with
      | none => none
      | some (key, afterKey) =>
        match skipWs afterKey with
        | ':' :: afterColon =>
          match parseValue fuel afterColon with
          | none => none
          | some (v, afterVal) =>
            let acc' := dictSet key v acc
            match skipWs afterVal with
            | ',' :: afterComma => parseObjectBody fuel acc' afterComma
            | '}' :: rest' => some (Json.obj acc', rest')
            | _ => none
        | _ => none
    | _ => none

/-- Elements of a JSON array after its `[` (or after a `,`), with the
elements decoded so far. -/
def parseArrayBody : Nat → List Json → List Char → Option (Json × List Char)
  | 0, _, _ => none
  | Nat.succ fuel, acc, s =>
    match skipWs s with
    | ']' :: rest => if acc.isEmpty then some (Json.arr [], rest) else none
    | t =>
      match parseValue fuel t with
      | none => none
      | some (v, afterVal) =>
        let acc' := acc ++ [v]
        match skipWs afterVal with
        | ',' :: afterComma => parseArrayBody fuel acc' afterComma
        | ']' :: rest' => some (Json.arr acc', rest')
        | _ => none

end

/-- Model of Python `json.loads(s)`: one value, then only whitespace may
remain ("Extra data" otherwise); `none` models `json.JSONDecodeError`. -/
def json_loads (s : List Char) : Option Json :=
  match parseValue (8 * s.length + 8) s with
  | some (v, rest) => if skipWs rest = [] then some v else none
  | none => none

/-! ## The response normalizer (`extract_json_from_text`, `parse_json_response`) -/

/-- Model of `extract_json_from_text` (app.py:137): the slice from the
first `\x7b` to the last `\x7d`; the guard tests `rfind + 1 != -1`, which
never fails, so a text with `\x7b` but no `\x7d` yields `text[start:0]`,
the empty string. The source's `try` never fires (`find`/`rfind`/slicing
do not raise) and is not modelled. -/
def extract_json_from_text (text : List Char) : List Char :=
  let start := pyFind text '{'
  let e := pyRFind text '}' + 1
  if start ≠ -1 ∧ e ≠ -1 then pySliceTo text start e
  else '{' :: '}' :: []

/-- Tier-3 default when the raw response mentions `"prerequisites"` (app.py:161). -/
def prerequisitesDefault : Json :=
  Json.obj [(("prerequisites").toList,
    Json.arr [Json.obj [(("topic").toList, Json.str (("Basic concepts").toList)),
                        (("level").toList, Json.str (("Basic").toList))]])]

/-- Tier-3 default when the raw response mentions `"subtopics"` (app.py:163). -/
def subtopicsDefault : Json :=
  Json.obj [(("subtopics").toList, Json.arr [Json.str (("Basic concepts").toList)])]

/-- Tier-3 default when the raw response mentions `"textbooks"` (app.py:165-171). -/
def resourcesDefault : Json :=
  Json.obj
    [(("textbooks").toList, Json.arr [Json.obj
        [(("title").toList, Json.str (("Resource not available").toList)),
         (("author").toList, Json.str (("N/A").toList)),
         (("link").toList, Json.str (("#").toList))]]),
     (("papers").toList, Json.arr [Json.obj
        [(("title").toList, Json.str (("Resource not available").toList)),
         (("authors").toList, Json.str (("N/A").toList)),
         (("link").toList, Json.str (("#").toList))]]),
     (("youtube").toList, Json.str (("https://youtube.com/watch?v=dQw4w9WgXcQ").toList)),
     (("courses").toList, Json.arr [Json.obj
        [(("title").toList, Json.str (("Resource not available").toList)),
         (("platform").toList, Json.str (("N/A").toList)),
         (("link").toList, Json.str (("#").toList))]]),
     (("interactive_platforms").toList, Json.arr [Json.obj
        [(("name").toList, Json.str (("Resource not available").toList)),
         (("description").toList, Json.str (("N/A").toList)),
         (("link").toList, Json.str (("#").toList))]])]

/-- What `parse_json_response` produces: the returned structure, and
whether the `st.warning` in its final fallback fired. -/
structure ParseResult : Type where
  value : Json
  warned : Bool

/-- Model of `parse_json_response` (app.py:149): strict decode of the
stripped text; on failure decode of the first-`\x7b`-to-last-`\x7d`
extraction; on failure a warning and a default chosen by substring
markers in the raw response, else the empty object. -/
def parse_json_response (response : List Char) : ParseResult :=
  let cleaned := pyStrip response
  match json_loads cleaned with
  | some v => ⟨v, false⟩
  | none =>
    match json_loads (extract_json_from_text cleaned) with
    | some v => ⟨v, false⟩
    | none =>
      if containsSub (("\"prerequisites\"").toList) response then ⟨prerequisitesDefault, true⟩
      else if containsSub (("\"subtopics\"").toList) response then ⟨subtopicsDefault, true⟩
      else if containsSub (("\"textbooks\"").toList) response then ⟨resourcesDefault, true⟩
      else ⟨Json.obj [], true⟩

/-! ## Prompt builders (app.py:22-135) -/

/-- Model of `get_prerequisites_prompt` (app.py:22). -/
def get_prerequisites_prompt (topic : List Char) : List Char :=
  ("You are a helpful educational assistant. For the topic '").toList ++ topic ++
  ("', list exactly 3-5 prerequisite topics.\n    \n    Rules:\n    1. Response must be valid JSON\n    2. Each prerequisite must have a topic name and difficulty level\n    3. Difficulty must be one of: \"Basic\", \"Intermediate\", \"Advanced\"\n    \n    Return only the JSON in this exact format, nothing else:\n    \x7b\n        \"prerequisites\": [\n            \x7b\"topic\": \"example topic\", \"level\": \"Basic\"\x7d,\n            \x7b\"topic\": \"another topic\", \"level\": \"Intermediate\"\x7d\n        ]\n    \x7d").toList

/-- Model of `get_chatbot_prompt` (app.py:38). -/
def get_chatbot_prompt (topic context : List Char) : List Char :=
  ("You are a helpful educational assistant specializing in ").toList ++ topic ++
  (". \n    Use this context about the user's learning journey: ").toList ++ context ++
  ("\n    \n    Provide clear, concise answers focused on ").toList ++ topic ++
  (" and related concepts in 150 words.\n    If asked about topics outside your expertise, guide the conversation back to ").toList ++
  topic ++ (".").toList

/-- Model of `get_subtopics_prompt` (app.py:45). -/
def get_subtopics_prompt (topic : List Char) : List Char :=
  ("You are a helpful educational assistant. For the topic '").toList ++ topic ++
  ("', list exactly 5 key subtopics to study.\n    \n    Rules:\n    1. Response must be valid JSON\n    2. Each subtopic should be brief but descriptive\n    \n    Return only the JSON in this exact format, nothing else:\n    \x7b\n        \"subtopics\": [\n            \"subtopic 1\",\n            \"subtopic 2\",\n            \"subtopic 3\",\n            \"subtopic 4\",\n            \"subtopic 5\"\n        ]\n    \x7d").toList

/-- Model of `get_roadmap_prompt` (app.py:63). -/
def get_roadmap_prompt (topic : List Char) (subtopics : List (List Char)) : List Char :=
  let subtopics_str := joinSep ((", ").toList) subtopics
  ("Create a detailed learning roadmap for mastering '").toList ++ topic ++
  ("' with focus on: ").toList ++ subtopics_str ++
  ("\n\n    Rules:\n    1. Response must be valid JSON\n    2. Break down into weeks (4-6 weeks total)\n    3. Each week should have clear goals and activities\n    4. Include estimated time commitment per week\n    5. Include specific practice exercises and projects\n    \n    Return only the JSON in this exact format, nothing else:\n    \x7b\n        \"roadmap\": [\n            \x7b\n                \"week\": 1,\n                \"goals\": [\"goal1\", \"goal2\"],\n                \"activities\": [\"activity1\", \"activity2\"],\n                \"exercises\": [\"exercise1\", \"exercise2\"],\n                \"project\": \"project description\",\n                \"hours_per_week\": 10\n            \x7d\n        ]\n    \x7d").toList

/-- Model of `get_content_prompt` (app.py:88). -/
def get_content_prompt (subtopics : List (List Char)) : List Char :=
  let subtopics_str := joinSep ((", ").toList) subtopics
  ("Provide a comprehensive learning summary for these subtopics: ").toList ++ subtopics_str ++
  ("\n\n    For each subtopic:\n    1. Start with a clear overview (2-3 sentences)\n    2. List 3-4 key concepts with brief explanations\n    3. Include 2-3 practical examples with code or detailed steps\n    4. Suggest hands-on exercises or mini-projects\n    5. Include common pitfalls and how to avoid them\n    \n    Structure the response with clear headings and bullet points.\n    Focus on practical applications and real-world relevance.\n    Include difficulty rating for each concept (Basic/Intermediate/Advanced).").toList

/-- Model of `get_resources_prompt` (app.py:103). -/
def get_resources_prompt (topic : List Char) (subtopics : List (List Char)) : List Char :=
  let subtopics_str := joinSep ((", ").toList) subtopics
  ("You are a helpful educational assistant. Provide learning resources for '").toList ++ topic ++
  ("' focusing on: ").toList ++ subtopics_str ++
  ("\n\n    Rules:\n    1. Response must be valid JSON\n    2. Include exactly 3 textbooks and 3 papers\n    3. Include exactly 1 YouTube video (full URL) for '").toList ++
  topic ++ ("' focusing on: ").toList ++ subtopics_str ++
  ("\n    4. Include 2 online courses\n    5. Include 2 interactive learning platforms\n    \n    Return only the JSON in this exact format, nothing else:\n    \x7b\n        \"textbooks\": [\n            \x7b\"title\": \"Book Title 1\", \"author\": \"Author Name\", \"link\": \"https://example.com/book1\"\x7d,\n            \x7b\"title\": \"Book Title 2\", \"author\": \"Author Name\", \"link\": \"https://example.com/book2\"\x7d,\n            \x7b\"title\": \"Book Title 3\", \"author\": \"Author Name\", \"link\": \"https://example.com/book3\"\x7d\n        ],\n        \"papers\": [\n            \x7b\"title\": \"Paper Title 1\", \"authors\": \"Authors\", \"link\": \"https://example.com/paper1\"\x7d,\n            \x7b\"title\": \"Paper Title 2\", \"authors\": \"Authors\", \"link\": \"https://example.com/paper2\"\x7d,\n            \x7b\"title\": \"Paper Title 3\", \"authors\": \"Authors\", \"link\": \"https://example.com/paper3\"\x7d\n        ],\n        \"youtube\": \"https://youtube.com/watch?v=FULL_VIDEO_URL\",\n        \"courses\": [\n            \x7b\"title\": \"Course Title 1\", \"platform\": \"Platform Name\", \"link\": \"https://example.com/course1\"\x7d,\n            \x7b\"title\": \"Course Title 2\", \"platform\": \"Platform Name\", \"link\": \"https://example.com/course2\"\x7d\n        ],\n        \"interactive_platforms\": [\n            \x7b\"name\": \"Platform Name 1\", \"description\": \"Description\", \"link\": \"https://example.com/platform1\"\x7d,\n            \x7b\"name\": \"Platform Name 2\", \"description\": \"Description\", \"link\": \"https://example.com/platform2\"\x7d\n        ]\n    \x7d").toList

/-! ## Python dynamic helpers used by `main` -/

/-- Python truthiness of a decoded JSON value (`if v:`). A number is falsy
exactly when its mantissa digits are all zero; the float constants
`NaN`/`Infinity` are truthy. -/
def jsonTruthy : Json → Bool
  | .null => false
  | .bool b => b
  | .num lex =>
    lex.any (fun c => c = 'N' || c = 'I') ||
      !((lex.takeWhile (fun c => !(c = 'e' || c = 'E'))).all
          (fun c => !c.isDigit || c = '0'))
  | .str s => !s.isEmpty
  | .arr xs => !xs.isEmpty
  | .obj fs => !fs.isEmpty

/-- Python `d.get(k)` on a decoded value: a lookup on a dict (`none` for a
missing key, i.e. Python `None`), an `AttributeError` (modelled `.error`)
on anything else. -/
def pyDictGet : Json → List Char → Except Unit (Option Json)
  | .obj fs, k => .ok (jlookup k fs)
  | _, _ => .error ()

/-- Whether `for x in v: st.write(x)` iterates without raising: lists,
dicts (over keys) and strings (over characters) are iterable, the other
JSON values are not. -/
def jsonIterable : Json → Bool
  | .arr _ => true
  | .obj _ => true
  | .str _ => true
  | _ => false

/-! ## Session state and the orchestration of `main` (app.py:201-339)

Streamlit reruns `main` top to bottom on every user interaction while
`st.session_state` persists; one run of the `if topic:` body is modelled
as a function from the persistent state and the run's inputs (widget
values, chat box, the LLM's behaviour) to the new state, the list of LLM
calls issued, and whether the run ended in the outer `except` handler
(`ok = false` means `st.error` was shown). -/

/-- The persistent `st.session_state` fields the core uses. -/
structure SessionState : Type where
  responses : List (List Char × Json)
  prereq_levels : List (List Char × List Char)
  messages : List (List Char × List Char)

/-- One run's inputs: the external LLM (`none` models `llm.invoke`
raising), the proficiency selectboxes (keyed by prerequisite name, a
selectbox always holds a value), the subtopic checkboxes, and the chat
box (`none` when no message was submitted). -/
structure Env : Type where
  llm : List Char → Option (List Char)
  level_choice : List Char → List Char
  box_checked : List Char → Bool
  chat_input : Option (List Char)

/-- Which generation call a logged prompt belongs to. -/
inductive CallTag : Type where
  | prereq | subtop | roadmap | content | resources | chat
deriving DecidableEq

/-- Result of part of a run: the session state after it, the LLM calls it
issued (tag and prompt, in order), and whether it completed without
reaching the outer `except` handler. -/
structure StepOut : Type where
  sess : SessionState
  calls : List (CallTag × List Char)
  ok : Bool

/-- Sequencing inside the `try` block: a raised step (or a failed LLM
call) skips everything after it, keeping the mutations made so far. -/
def StepOut.andThen (r : StepOut) (f : SessionState → StepOut) : StepOut :=
  if r.ok then
    let r2 := f r.sess
    ⟨r2.sess, r.calls ++ r2.calls, r2.ok⟩
  else r

/-- Session-store key of each memoized stage (content and chat are never
stored; their tags map to a key `main` never uses). -/
def stage_key : CallTag → List Char
  | .prereq => ("prerequisites").toList
  | .subtop => ("subtopics").toList
  | .roadmap => ("roadmap").toList
  | .resources => ("resources").toList
  | .content => []
  | .chat => []

/-- The memoized fetch pattern (app.py:233-236, 257-260, 272-275,
302-305): if the key is absent from `st.session_state.responses`, invoke
the LLM and store the normalized response under it; a raising `invoke`
stores nothing and aborts the run. -/
def fetch_stage (env : Env) (tag : CallTag) (prompt : List Char)
    (s : SessionState) : StepOut :=
  match jlookup (stage_key tag) s.responses with
  | some _ => ⟨s, [], true⟩
  | none =>
    match env.llm prompt with
    | none => ⟨s, [(tag, prompt)], false⟩
    | some content =>
      ⟨{ s with responses := dictSet (stage_key tag) (parse_json_response content).value s.responses },
       [(tag, prompt)], true⟩

/-- The assessment loop body (app.py:245-254): each entry must be a dict
with a string `topic` (it becomes a `prereq_levels` key; non-string names
are outside the schema) and a `level` (read by the selectbox label);
anything else raises. Each iteration records the selectbox value. -/
def assessLoop (env : Env) : List Json → SessionState → StepOut
  | [], s => ⟨s, [], true⟩
  | e :: rest, s =>
    match e with
    | .obj fs =>
      match jlookup (("topic").toList) fs, jlookup (("level").toList) fs with
      | some (.str t), some _ =>
        assessLoop env rest
          { s with prereq_levels := dictSet t (env.level_choice t) s.prereq_levels }
      | _, _ => ⟨s, [], false⟩
    | _ => ⟨s, [], false⟩

/-- The prerequisites assessment (app.py:238-254): read the stored
prerequisites response, `get` its list; a falsy value skips the section,
a truthy non-list raises when iterated/indexed, a list runs the loop. -/
def assess_prereqs (env : Env) (s : SessionState) : StepOut :=
  match jlookup (stage_key .prereq) s.responses with
  | none => ⟨s, [], false⟩
  | some data =>
    match pyDictGet data (("prerequisites").toList) with
    | .error _ => ⟨s, [], false⟩
    | .ok none => ⟨s, [], true⟩
    | .ok (some v) =>
      if jsonTruthy v then
        match v with
        | .arr entries => assessLoop env entries s
        | _ => ⟨s, [], false⟩
      else ⟨s, [], true⟩

/-- The subtopic checkboxes (app.py:262-268): `.ok none` when the
`subtopics` value is falsy (the whole roadmap section is skipped),
`.ok (some sel)` with the checked labels when it is a list of strings
(the schema shape; other element types reach Python-specific widget
behaviour and are modelled as raising), `.error` when reading it raises. -/
def select_subtopics (env : Env) (s : SessionState) :
    Except Unit (Option (List (List Char))) :=
  match jlookup (stage_key .subtop) s.responses with
  | none => .error ()
  | some data =>
    match pyDictGet data (("subtopics").toList) with
    | .error _ => .error ()
    | .ok none => .ok none
    | .ok (some v) =>
      if jsonTruthy v then
        match v with
        | .arr items =>
          if items.all (fun it => match it with | .str _ => true | _ => false) then
            .ok (some ((items.filterMap (fun it => match it with | .str t => some t | _ => none)).filter env.box_checked))
          else .error ()
        | _ => .error ()
      else .ok none

/-- Whether rendering one roadmap week (app.py:282-293) succeeds: a dict
with `week`, `hours_per_week` and `project` present and iterable `goals`,
`activities` and `exercises`. -/
def weekShape (w : Json) : Bool :=
  match w with
  | .obj fs =>
    (jlookup (("week").toList) fs).isSome &&
    (jlookup (("hours_per_week").toList) fs).isSome &&
    (match jlookup (("goals").toList) fs with | some g => jsonIterable g | none => false) &&
    (match jlookup (("activities").toList) fs with | some g => jsonIterable g | none => false) &&
    (match jlookup (("exercises").toList) fs with | some g => jsonIterable g | none => false) &&
    (jlookup (("project").toList) fs).isSome
  | _ => false

/-- Rendering the roadmap (app.py:277-293): `responses.get('roadmap', {})`,
then its `roadmap` list; falsy skips, a truthy non-list or an ill-shaped
week raises. Rendering mutates nothing. -/
def display_roadmap (s : SessionState) : Except Unit Unit :=
  let rd := (jlookup (stage_key .roadmap) s.responses).getD (Json.obj [])
  match pyDictGet rd (("roadmap").toList) with
  | .error _ => .error ()
  | .ok none => .ok ()
  | .ok (some v) =>
    if jsonTruthy v then
      match v with
      | .arr weeks => if weeks.all weekShape then .ok () else .error ()
      | _ => .error ()
    else .ok ()

/-- Whether every element of a resource list is a dict holding all of
`keys` (the fields the markdown lines read). -/
def resourceItemsOk (keys : List (List Char)) : Json → Bool
  | .arr items =>
    items.all fun it =>
      match it with
      | .obj fs => keys.all fun k => (jlookup k fs).isSome
      | _ => false
  | _ => false

/-- Rendering the resources section (app.py:307-328). A falsy value skips
everything. Otherwise each list is read with `.get(k, [])` and iterated;
the papers line reads `book['link']` from the *textbooks* loop variable
(app.py:315), a `NameError` when no textbook was iterated; a truthy
non-string `youtube` value raises in `st.video`. -/
def display_resources (s : SessionState) : Except Unit Unit :=
  match jlookup (stage_key .resources) s.responses with
  | none => .error ()
  | some rd =>
    if jsonTruthy rd then
      match rd with
      | .obj fs =>
        let tb := (jlookup (("textbooks").toList) fs).getD (Json.arr [])
        let pp := (jlookup (("papers").toList) fs).getD (Json.arr [])
        let cs := (jlookup (("courses").toList) fs).getD (Json.arr [])
        let ip := (jlookup (("interactive_platforms").toList) fs).getD (Json.arr [])
        if resourceItemsOk [("title").toList, ("link").toList, ("author").toList] tb
            && resourceItemsOk [("title").toList, ("authors").toList] pp
            && (match pp with | .arr (_ :: _) => (match tb with | .arr (_ :: _) => true | _ => false) | _ => true)
            && resourceItemsOk [("title").toList, ("link").toList, ("platform").toList] cs
            && resourceItemsOk [("name").toList, ("link").toList, ("description").toList] ip
            && (match jlookup (("youtube").toList) fs with
                | some y => if jsonTruthy y then (match y with | .str _ => true | _ => false) else true
                | none => true) then
          .ok ()
        else .error ()
      | _ => .error ()
    else .ok ()

/-- The content summary (app.py:296-299): invoked on every run that
reaches it, displayed, and never stored in `responses`. -/
def content_step (env : Env) (sel : List (List Char)) (s : SessionState) : StepOut :=
  match env.llm (get_content_prompt sel) with
  | none => ⟨s, [(.content, get_content_prompt sel)], false⟩
  | some _ => ⟨s, [(.content, get_content_prompt sel)], true⟩

/-- Model of `display_chatbot` (app.py:174-199): on a submitted non-empty
question, append the user turn, build the chat prompt from the template,
the given context and the question alone, invoke, and append the
assistant turn. The prior transcript is only rendered, never sent. -/
def display_chatbot (env : Env) (topic context : List Char) (s : SessionState) : StepOut :=
  match env.chat_input with
  | none => ⟨s, [], true⟩
  | some q =>
    if q.isEmpty then ⟨s, [], true⟩
    else
      let s1 := { s with messages := s.messages ++ [(("user").toList, q)] }
      let full_prompt := get_chatbot_prompt topic context ++ ("\n\nUser: ").toList ++ q
      match env.llm full_prompt with
      | none => ⟨s1, [(.chat, full_prompt)], false⟩
      | some resp =>
        ⟨{ s1 with messages := s1.messages ++ [(("assistant").toList, resp)] },
         [(.chat, full_prompt)], true⟩

/-- Sequencing after a rendering step: a raised display aborts the run
(keeping the state), a successful one continues. -/
def guardExcept (d : Except Unit Unit) (k : SessionState → StepOut)
    (s : SessionState) : StepOut :=
  match d with
  | .error _ => ⟨s, [], false⟩
  | .ok _ => k s

/-- The resources fetch and its rendering (app.py:302-328). -/
def resources_tail (env : Env) (topic : List Char) (sel : List (List Char))
    (s : SessionState) : StepOut :=
  (fetch_stage env .resources (get_resources_prompt topic sel) s).andThen fun s4 =>
    guardExcept (display_resources s4) (fun s5 => ⟨s5, [], true⟩) s4

/-- The content call then the resources part (app.py:296-328). -/
def content_tail (env : Env) (topic : List Char) (sel : List (List Char))
    (s : SessionState) : StepOut :=
  (content_step env sel s).andThen (resources_tail env topic sel)

/-- The roadmap/content/resources section (app.py:271-328), entered with
the non-empty checked subtopics. -/
def roadmap_section (env : Env) (topic : List Char) (sel : List (List Char))
    (s : SessionState) : StepOut :=
  (fetch_stage env .roadmap (get_roadmap_prompt topic sel) s).andThen fun s2 =>
    guardExcept (display_roadmap s2) (content_tail env topic sel) s2

/-- The subtopic selection and everything under it (app.py:262-328). -/
def subtop_section (env : Env) (topic : List Char) (s : SessionState) : StepOut :=
  match select_subtopics env s with
  | .error _ => ⟨s, [], false⟩
  | .ok none => ⟨s, [], true⟩
  | .ok (some sel) =>
    if sel.isEmpty then ⟨s, [], true⟩ else roadmap_section env topic sel s

/-- The chat context built in `main` (app.py:333-334). -/
def build_context (levels : List (List Char × List Char)) : List Char :=
  ("User's prerequisite levels:\n").toList ++
    joinSep (("\n").toList) (levels.map fun p => p.1 ++ (": ").toList ++ p.2)

/-- The chat section (app.py:330-335): shown only when
`any(st.session_state.prereq_levels)` — some *key* of the levels dict is
a non-empty string. -/
def chat_section (env : Env) (topic : List Char) (s : SessionState) : StepOut :=
  if s.prereq_levels.any (fun kv => !kv.1.isEmpty) then
    display_chatbot env topic (build_context s.prereq_levels) s
  else ⟨s, [], true⟩

/-- One full run of the `if topic:` body of `main` (app.py:230-339) on
the persistent session state. An empty topic renders nothing. -/
def run_main (env : Env) (topic : List Char) (s0 : SessionState) : StepOut :=
  if topic.isEmpty then ⟨s0, [], true⟩
  else
    ((((fetch_stage env .prereq (get_prerequisites_prompt topic) s0).andThen
        (assess_prereqs env)).andThen
        (fetch_stage env .subtop (get_subtopics_prompt topic))).andThen
        (subtop_section env topic)).andThen
        (chat_section env topic)

/-- A fenced code block with a `json` tag around a response text. -/
def fenced (t : List Char) : List Char :=
  ("```json\n").toList ++ t ++ ("\n```").toList

/-! ## Observables of a session state -/

/-- The prerequisite names of a stored prerequisites entry list: the
string `topic` field of each well-formed entry. -/
def entryTopics (es : List Json) : List (List Char) :=
  es.filterMap fun e =>
    match e with
    | Json.obj efs =>
      match jlookup (("topic").toList) efs with
      | some (Json.str t) => some t
      | _ => none
    | _ => none

/-- The prerequisite names the session's stored prerequisites response
returns (empty when no well-shaped list is stored). -/
def prereq_topics (s : SessionState) : List (List Char) :=
  match jlookup (stage_key .prereq) s.responses with
  | some (Json.obj fs) =>
    match jlookup (("prerequisites").toList) fs with
    | some (Json.arr entries) => entryTopics entries
    | _ => []
  | _ => []

/-- Every returned prerequisite has a proficiency entry in
`prereq_levels`. -/
def ratedAll (s : SessionState) : Bool :=
  (prereq_topics s).all fun t => (jlookup t s.prereq_levels).isSome

/-- Stored responses are never overwritten or dropped by a run: every key
present before keeps its exact value. -/
def RespFrame (s0 : SessionState) (out : StepOut) : Prop :=
  ∀ k, (jlookup k s0.responses).isSome →
    jlookup k out.sess.responses = jlookup k s0.responses

/-- A part of a run makes no failing LLM call when it completes, and at
most one ever (the first raising `invoke` aborts the run: no retry). -/
def CallsBudget (env : Env) (out : StepOut) : Prop :=
  (out.ok = true → out.calls.countP (fun c => (env.llm c.2).isNone) = 0) ∧
  out.calls.countP (fun c => (env.llm c.2).isNone) ≤ 1

/-- When a memoized stage's LLM call fails, the run ends in the error
handler and that stage's key is absent from the store afterwards. -/
def FailAbsent (env : Env) (out : StepOut) : Prop :=
  ∀ tag prompt, tag ≠ CallTag.content → tag ≠ CallTag.chat →
    (tag, prompt) ∈ out.calls → env.llm prompt = none →
    out.ok = false ∧ jlookup (stage_key tag) out.sess.responses = none

/-- No call of a part of a run carries the given tag. -/
def TagFree (tag : CallTag) (out : StepOut) : Prop :=
  ∀ c ∈ out.calls, c.1 ≠ tag

/-- A part of a run leaves the assessment alone: the proficiency levels
and the stored prerequisites response are unchanged. -/
def PreservesAssessment (s : SessionState) (out : StepOut) : Prop :=
  out.sess.prereq_levels = s.prereq_levels ∧
  jlookup (stage_key .prereq) out.sess.responses =
    jlookup (stage_key .prereq) s.responses

/-! ## Concrete scenario data for the counterexamples and witnesses -/

/-- The empty session (a fresh `st.session_state`). -/
def sessEmpty : SessionState := ⟨[], [], []⟩

/-- An environment whose LLM answers every prompt: the subtopics stage
gets a well-formed response, the others get non-JSON text (normalized to
the empty object); every checkbox is ticked, no chat message is sent. -/
def envC1 : Env where
  llm := fun p =>
    if containsSub (("prerequisite").toList) p then some (("x").toList)
    else if containsSub (("subtopics").toList) p then
      some (("\x7b\"subtopics\": [\"algebra\"]\x7d").toList)
    else some (("x").toList)
  level_choice := fun _ => ("Beginner").toList
  box_checked := fun _ => true
  chat_input := none

/-- The studied topic of the C1 scenario. -/
def topicC1 : List Char := ("graphs").toList

/-- A session mid-journey: all memoized stage data present, a transcript
with the user turn `ABCD`, a stored roadmap value mentioning `ZZZZ`, one
rated prerequisite. The environment submits a chat question. -/
def sessC5 : SessionState :=
  ⟨[((("prerequisites").toList), Json.obj []),
    ((("subtopics").toList), Json.obj []),
    ((("roadmap").toList), Json.str (("ZZZZ").toList))],
   [((("Math").toList), ("Beginner").toList)],
   [((("user").toList), ("ABCD").toList), ((("assistant").toList), ("EFGH").toList)]⟩

/-- The environment of the C5 scenario: a chat question is submitted. -/
def envC5 : Env where
  llm := fun _ => some (("ok").toList)
  level_choice := fun _ => ("Beginner").toList
  box_checked := fun _ => false
  chat_input := some (("What is X?").toList)

/-- The studied topic of the C5 scenario. -/
def topicC5 : List Char := ("topicT").toList

/-- A minimal environment that submits a chat question and whose LLM
always raises. -/
def envChatOnly : Env where
  llm := fun _ => none
  level_choice := fun _ => []
  box_checked := fun _ => false
  chat_input := some (("Q?").toList)

/-- A session with one rated prerequisite and nothing else. -/
def sessOneLevel : SessionState :=
  ⟨[], [((("T").toList), ("Beginner").toList)], []⟩

/-- An environment whose LLM always raises; nothing is checked or asked. -/
def envAllFail : Env where
  llm := fun _ => none
  level_choice := fun _ => []
  box_checked := fun _ => false
  chat_input := none

/-- A session that already holds (empty-object) roadmap data. -/
def sessRoadmapStored : SessionState :=
  ⟨[((("roadmap").toList), Json.obj [])], [], []⟩

/-- An environment whose LLM returns one well-formed prerequisite for the
prerequisites stage and non-JSON text for everything else; no checkbox is
ticked and no chat message is sent. -/
def envC4 : Env where
  llm := fun p =>
    if containsSub (("prerequisite").toList) p then
      some (("\x7b\"prerequisites\": [\x7b\"topic\": \"Arithmetic\", \"level\": \"Basic\"\x7d]\x7d").toList)
    else some (("x").toList)
  level_choice := fun _ => ("Beginner").toList
  box_checked := fun _ => false
  chat_input := none

/-! ## Lemmas: find/rfind/slice/strip -/

theorem findIdx_eq_none_of_not_mem {c : Char} :
    ∀ {s : List Char}, c ∉ s → findIdx c s = none := by
  intro s
  induction s with
  | nil => intro _; rfl
  | cons a rest ih =>
    intro h
    have ha : ¬a = c := fun e => h (e ▸ List.mem_cons_self a rest)
    have hr : c ∉ rest := fun hm => h (List.mem_cons_of_mem a hm)
    simp [findIdx, ha, ih hr]

theorem findIdx_isSome_of_mem {c : Char} :
    ∀ {s : List Char}, c ∈ s → ∃ i, findIdx c s = some i := by
  intro s
  induction s with
  | nil => intro h; cases h
  | cons a rest ih =>
    intro h
    by_cases ha : a = c
    · exact ⟨0, by simp [findIdx, ha]⟩
    · have : c ∈ rest := by
        rcases List.mem_cons.mp h with h1 | h1
        · exact absurd h1.symm ha
        · exact h1
      obtain ⟨i, hi⟩ := ih this
      exact ⟨i + 1, by simp [findIdx, ha, hi]⟩

theorem findIdx_append_of_not_mem {c : Char} {pre s : List Char} {i : Nat}
    (hpre : c ∉ pre) (hs : findIdx c s = some i) :
    findIdx c (pre ++ s) = some (pre.length + i) := by
  induction pre with
  | nil => simpa using hs
  | cons a rest ih =>
    have ha : ¬a = c := fun e => hpre (e ▸ List.mem_cons_self a rest)
    have hr : c ∉ rest := fun hm => hpre (List.mem_cons_of_mem a hm)
    simp [findIdx, ha, ih hr]
    omega

theorem rfindIdx_eq_none_of_not_mem {c : Char} :
    ∀ {s : List Char}, c ∉ s → rfindIdx c s = none := by
  intro s
  induction s with
  | nil => intro _; rfl
  | cons a rest ih =>
    intro h
    have ha : ¬a = c := fun e => h (e ▸ List.mem_cons_self a rest)
    have hr : c ∉ rest := fun hm => h (List.mem_cons_of_mem a hm)
    simp [rfindIdx, ih hr, ha]

theorem rfindIdx_append_of_not_mem_right {c : Char} {post : List Char}
    (hpost : c ∉ post) :
    ∀ (s : List Char), rfindIdx c (s ++ post) = rfindIdx c s := by
  intro s
  induction s with
  | nil => simp [rfindIdx, rfindIdx_eq_none_of_not_mem hpost]
  | cons a rest ih => simp [rfindIdx, ih]

theorem rfindIdx_append_self {c : Char} :
    ∀ (s : List Char), rfindIdx c (s ++ [c]) = some s.length := by
  intro s
  induction s with
  | nil => simp [rfindIdx]
  | cons a rest ih => simp [rfindIdx, ih]

theorem take_len_append {α : Type} : ∀ (xs ys : List α), (xs ++ ys).take xs.length = xs := by
  intro xs ys
  induction xs with
  | nil => rfl
  | cons a rest ih => simp [ih]

theorem slice_middle {α : Type} :
    ∀ (pre T post : List α),
      ((pre ++ T ++ post).take (pre.length + T.length)).drop pre.length = T := by
  intro pre T post
  induction pre with
  | nil => simp [take_len_append T post]
  | cons a rest ih =>
    have h : rest.length + 1 + T.length = (rest.length + T.length) + 1 := by omega
    simp only [List.cons_append, List.length_cons, h, List.take_succ_cons,
      List.drop_succ_cons]
    exact ih

theorem dropWhile_cons_of_neg {p : Char → Bool} {a : Char} {l : List Char}
    (h : p a = false) : (a :: l).dropWhile p = a :: l := by
  simp [List.dropWhile, h]

theorem pyStrip_eq_self_of {s : List Char}
    (h1 : ∃ c r, s = c :: r ∧ isPyWs c = false)
    (h2 : ∃ c r, s.reverse = c :: r ∧ isPyWs c = false) :
    pyStrip s = s := by
  obtain ⟨c, r, hs, hc⟩ := h1
  obtain ⟨d, u, hrev, hd⟩ := h2
  unfold pyStrip
  rw [hs, dropWhile_cons_of_neg hc, ← hs, hrev, dropWhile_cons_of_neg hd, ← hrev,
    List.reverse_reverse]

/-! ## Lemmas: the extraction slice and the JSON tiers -/

theorem extract_middle {pre mid post : List Char}
    (hpre : '{' ∉ pre) (hpost : '}' ∉ post) :
    extract_json_from_text (pre ++ ('{' :: mid ++ ['}']) ++ post) = '{' :: mid ++ ['}'] := by
  have hfind : findIdx '{' (pre ++ ('{' :: mid ++ ['}']) ++ post) = some pre.length := by
    have h0 : findIdx '{' (('{' :: mid ++ ['}']) ++ post) = some 0 := by
      simp [findIdx]
    have := @findIdx_append_of_not_mem _ pre (('{' :: mid ++ ['}']) ++ post) _ hpre h0
    simpa [List.append_assoc] using this
  have hrfind : rfindIdx '}' (pre ++ ('{' :: mid ++ ['}']) ++ post)
      = some (pre.length + mid.length + 1) := by
    have hassoc : pre ++ ('{' :: mid ++ ['}']) ++ post
        = ((pre ++ ('{' :: mid)) ++ ['}']) ++ post := by
      simp [List.append_assoc]
    rw [hassoc, rfindIdx_append_of_not_mem_right hpost, rfindIdx_append_self]
    simp
    omega
  unfold extract_json_from_text pyFind pyRFind
  rw [hfind, hrfind]
  have hguard : ((pre.length : Int) ≠ -1 ∧ ((pre.length + mid.length + 1 : Nat) : Int) + 1 ≠ -1) := by
    constructor <;> omega
  rw [if_pos hguard]
  unfold pySliceTo
  have h1 : (((pre.length + mid.length + 1 : Nat) : Int) + 1).toNat
      = pre.length + ('{' :: mid ++ ['}']).length := by
    simp
    omega
  have h2 : ((pre.length : Nat) : Int).toNat = pre.length := by omega
  rw [h1, h2]
  exact slice_middle pre ('{' :: mid ++ ['}']) post

theorem parseValue_backtick {r : List Char} :
    ∀ (fuel : Nat) {s : List Char}, skipWs s = '`' :: r → parseValue fuel s = none := by
  intro fuel
  cases fuel with
  | zero => intro s _; rfl
  | succ n =>
    intro s h
    simp only [parseValue, h]
    rfl

theorem json_loads_backtick {s r : List Char} (h : skipWs s = '`' :: r) :
    json_loads s = none := by
  unfold json_loads
  rw [parseValue_backtick _ h]

theorem ppr_tier1 {r : List Char} {v : Json}
    (h : json_loads (pyStrip r) = some v) :
    parse_json_response r = ⟨v, false⟩ := by
  simp [parse_json_response, h]

theorem ppr_tier2 {r : List Char} {v : Json}
    (h1 : json_loads (pyStrip r) = none)
    (h2 : json_loads (extract_json_from_text (pyStrip r)) = some v) :
    parse_json_response r = ⟨v, false⟩ := by
  simp [parse_json_response, h1, h2]

/-! ## C10: the edge behaviour of `extract_json_from_text` -/

/-- C10: an input with `\x7b` but no `\x7d` makes `rfind` return `-1`, so
`end` is `0`, which passes the `end != -1` guard and the function returns
the empty slice `text[start:0]`; an input with no `\x7b` at all returns
the literal `"\x7b\x7d"`, which the next tier decodes as the empty
object. -/
theorem C10_extract_edge_cases :
    (∀ text : List Char, '{' ∈ text → '}' ∉ text →
      extract_json_from_text text = []) ∧
    (∀ text : List Char, '{' ∉ text →
      extract_json_from_text text = '{' :: '}' :: [] ∧
      json_loads ('{' :: '}' :: []) = some (Json.obj [])) := by
  constructor
  · intro text hin hout
    obtain ⟨i, hi⟩ := findIdx_isSome_of_mem hin
    unfold extract_json_from_text pyFind pyRFind
    rw [hi, rfindIdx_eq_none_of_not_mem hout]
    have hguard : ((i : Int) ≠ -1 ∧ (-1 : Int) + 1 ≠ -1) := by
      constructor <;> omega
    rw [if_pos hguard]
    unfold pySliceTo
    simp
  · intro text hnin
    constructor
    · unfold extract_json_from_text pyFind
      rw [findIdx_eq_none_of_not_mem hnin]
      simp
    · rfl

/-! ## C3: the normalizer is total and tiered -/

/-- C3: on every input the normalizer returns through exactly one of its
three tiers — the strict decode, the extraction decode, or the default
tier (which warns and yields one of the three stage defaults or the empty
object); no input escapes the final tier. -/
theorem C3_normalizer_total_tiered :
    ∀ response : List Char,
      (∃ v, json_loads (pyStrip response) = some v ∧
        parse_json_response response = ⟨v, false⟩) ∨
      (json_loads (pyStrip response) = none ∧
        ∃ v, json_loads (extract_json_from_text (pyStrip response)) = some v ∧
          parse_json_response response = ⟨v, false⟩) ∨
      (json_loads (pyStrip response) = none ∧
        json_loads (extract_json_from_text (pyStrip response)) = none ∧
        (parse_json_response response).warned = true ∧
        ((parse_json_response response).value = prerequisitesDefault ∨
         (parse_json_response response).value = subtopicsDefault ∨
         (parse_json_response response).value = resourcesDefault ∨
         (parse_json_response response).value = Json.obj [])) := by
  intro response
  cases h1 : json_loads (pyStrip response) with
  | some v => exact Or.inl ⟨v, rfl, ppr_tier1 h1⟩
  | none =>
    cases h2 : json_loads (extract_json_from_text (pyStrip response)) with
    | some v => exact Or.inr (Or.inl ⟨rfl, v, rfl, ppr_tier2 h1 h2⟩)
    | none =>
      refine Or.inr (Or.inr ⟨rfl, rfl, ?_, ?_⟩) <;>
        · simp only [parse_json_response, h1, h2]
          split_ifs <;> simp

/-! ## C6: no post-decode shape check exists -/

/-- C6 counterexample: a successfully decoded object that lacks every
stage key (`prerequisites`, `subtopics`, `roadmap`, the resource keys) is
returned as-is — no stage default is applied after a successful decode. -/
theorem C6_cex_decoded_object_kept :
    parse_json_response (("\x7b\"a\": 1\x7d").toList) =
      ⟨Json.obj [((("a").toList), Json.num (("1").toList))], false⟩ := by
  rfl

/-- C6 as amended: whenever the strict decode of the stripped response
succeeds, `parse_json_response` returns the decoded value unchanged and
without a warning; required-key presence is never checked and no default
is substituted. -/
theorem C6_amended_no_shape_check :
    ∀ (response : List Char) (v : Json),
      json_loads (pyStrip response) = some v →
      parse_json_response response = ⟨v, false⟩ := by
  intro response v h
  exact ppr_tier1 h

/-- Witness for C6: the decode of `7` succeeds and the bare number is
returned unchanged (not even an object). -/
theorem C6_amended_no_shape_check_witness :
    parse_json_response (("7").toList) = ⟨Json.num (("7").toList), false⟩ :=
  C6_amended_no_shape_check (("7").toList) (Json.num (("7").toList)) (by rfl)

/-! ## C2: the final-tier defaults -/

/-- C2 counterexample: a roadmap-flavoured text on which both decode
tiers fail yields the empty object with a warning — there is no
roadmap/content "three-step generic plan" default — and a brace-free
completely non-JSON text decodes as `\x7b\x7d` at the extraction tier,
returning the empty object with *no* warning at all. -/
theorem C2_cex_no_roadmap_default :
    parse_json_response (("the \x7broadmap").toList) = ⟨Json.obj [], true⟩ ∧
    parse_json_response (("completely non-JSON text").toList) = ⟨Json.obj [], false⟩ := by
  exact ⟨rfl, rfl⟩

/-- C2 as amended: when both decode tiers fail, the normalizer warns and
picks its default by substring markers in the raw response —
`"prerequisites"` the single generic low-difficulty entry,
`"subtopics"` the single generic entry, `"textbooks"` the full
placeholder resource structure (link sentinel `#`, fixed video URL) —
and for any other text, roadmap/content responses included, the empty
object. -/
theorem C2_amended_marker_defaults :
    ∀ response : List Char,
      json_loads (pyStrip response) = none →
      json_loads (extract_json_from_text (pyStrip response)) = none →
      parse_json_response response =
        ⟨if containsSub (("\"prerequisites\"").toList) response then prerequisitesDefault
         else if containsSub (("\"subtopics\"").toList) response then subtopicsDefault
         else if containsSub (("\"textbooks\"").toList) response then resourcesDefault
         else Json.obj [], true⟩ := by
  intro response h1 h2
  simp only [parse_json_response, h1, h2]
  split_ifs <;> rfl

/-- Witness for C2 as amended: on `"prerequisites" \x7b` both tiers fail
and the prerequisites default is returned with the warning. -/
theorem C2_amended_marker_defaults_witness :
    parse_json_response (("\"prerequisites\" \x7b").toList) =
      ⟨if containsSub (("\"prerequisites\"").toList) (("\"prerequisites\" \x7b").toList)
        then prerequisitesDefault
       else if containsSub (("\"subtopics\"").toList) (("\"prerequisites\" \x7b").toList)
        then subtopicsDefault
       else if containsSub (("\"textbooks\"").toList) (("\"prerequisites\" \x7b").toList)
        then resourcesDefault
       else Json.obj [], true⟩ :=
  C2_amended_marker_defaults (("\"prerequisites\" \x7b").toList) (by rfl) (by rfl)

/-! ## C7: prose-wrapped objects and greedy-outermost extraction -/

/-- C7: when the stripped text is prose (no `\x7b`), then a complete
object, then prose (no `\x7d`), and the direct decode fails while the
object decodes, the normalizer slices from the first `\x7b` to the last
`\x7d` of the whole text — greedy-outermost, spanning any nested pairs —
and returns the embedded object without a warning. -/
theorem C7_prose_wrapped_extraction :
    ∀ (text pre mid post : List Char) (v : Json),
      pyStrip text = pre ++ ('{' :: mid ++ ['}']) ++ post →
      '{' ∉ pre → '}' ∉ post →
      json_loads (pyStrip text) = none →
      json_loads ('{' :: mid ++ ['}']) = some v →
      extract_json_from_text (pyStrip text) = '{' :: mid ++ ['}'] ∧
      parse_json_response text = ⟨v, false⟩ := by
  intro text pre mid post v hsplit hpre hpost hfail hobj
  have hex : extract_json_from_text (pyStrip text) = '{' :: mid ++ ['}'] := by
    rw [hsplit]; exact extract_middle hpre hpost
  refine ⟨hex, ?_⟩
  exact ppr_tier2 hfail (by rw [hex]; exact hobj)

/-- Witness for C7: prose around a nested object; the slice runs to the
*last* `\x7d` (past the inner pair) and the nested object is returned. -/
theorem C7_prose_wrapped_extraction_witness :
    extract_json_from_text (pyStrip (("Here: \x7b\"a\": \x7b\"b\": 1\x7d\x7d done").toList)) =
      '{' :: (("\"a\": \x7b\"b\": 1\x7d").toList) ++ ['}'] ∧
    parse_json_response (("Here: \x7b\"a\": \x7b\"b\": 1\x7d\x7d done").toList) =
      ⟨Json.obj [((("a").toList),
        Json.obj [((("b").toList), Json.num (("1").toList))])], false⟩ :=
  C7_prose_wrapped_extraction
    (("Here: \x7b\"a\": \x7b\"b\": 1\x7d\x7d done").toList)
    (("Here: ").toList)
    (("\"a\": \x7b\"b\": 1\x7d").toList)
    ((" done").toList)
    (Json.obj [((("a").toList), Json.obj [((("b").toList), Json.num (("1").toList))])])
    (by rfl) (by decide) (by decide) (by rfl) (by rfl)

/-! ## C8: fenced code blocks normalize like the unwrapped text -/

/-- C8: wrapping a decodable object text in a triple-backtick `json`
fence makes the strict decode fail, but the first-`\x7b`-to-last-`\x7d`
extraction recovers exactly the object text, so the normalizer returns
the same structure as for the unwrapped text. -/
theorem C8_fenced_equals_unwrapped :
    ∀ (mid : List Char) (v : Json),
      json_loads ('{' :: mid ++ ['}']) = some v →
      parse_json_response (fenced ('{' :: mid ++ ['}'])) =
        parse_json_response ('{' :: mid ++ ['}']) ∧
      parse_json_response ('{' :: mid ++ ['}']) = ⟨v, false⟩ := by
  intro mid v hobj
  have hstrip_plain : pyStrip ('{' :: mid ++ ['}']) = '{' :: mid ++ ['}'] := by
    refine pyStrip_eq_self_of ⟨'{', mid ++ ['}'], rfl, by decide⟩ ?_
    refine ⟨'}', (('{' :: mid).reverse), ?_, by decide⟩
    rw [show ('{' :: mid ++ ['}'] : List Char) = ('{' :: mid) ++ ['}'] from rfl,
      List.reverse_append]
    rfl
  have hplain : parse_json_response ('{' :: mid ++ ['}']) = ⟨v, false⟩ :=
    ppr_tier1 (by rw [hstrip_plain]; exact hobj)
  have hstrip_fence : pyStrip (fenced ('{' :: mid ++ ['}'])) = fenced ('{' :: mid ++ ['}']) := by
    refine pyStrip_eq_self_of
      ⟨'`', (("``json\n").toList ++ ('{' :: mid ++ ['}']) ++ ("\n```").toList), rfl, by decide⟩ ?_
    refine ⟨'`',
      (('`' :: '`' :: '\n' :: []) ++ ('{' :: mid ++ ['}']).reverse) ++ ("```json\n").toList.reverse,
      ?_, by decide⟩
    unfold fenced
    rw [List.reverse_append, List.reverse_append]
    rfl
  have hfence_fail : json_loads (pyStrip (fenced ('{' :: mid ++ ['}']))) = none := by
    rw [hstrip_fence]
    refine @json_loads_backtick _
      (("``json\n").toList ++ ('{' :: mid ++ ['}']) ++ ("\n```").toList) ?_
    unfold fenced
    rfl
  have hex : extract_json_from_text (pyStrip (fenced ('{' :: mid ++ ['}'])))
      = '{' :: mid ++ ['}'] := by
    rw [hstrip_fence]
    exact @extract_middle (("```json\n").toList) _ (("\n```").toList)
      (by decide) (by decide)
  have hfence : parse_json_response (fenced ('{' :: mid ++ ['}'])) = ⟨v, false⟩ :=
    ppr_tier2 hfence_fail (by rw [hex]; exact hobj)
  exact ⟨by rw [hfence, hplain], hplain⟩

/-! ## Lemmas: Python dictionaries -/

theorem jlookup_dictSet_self {α : Type} (k : List Char) (v : α) :
    ∀ m : List (List Char × α), jlookup k (dictSet k v m) = some v := by
  intro m
  induction m with
  | nil => simp [dictSet, jlookup]
  | cons a rest ih =>
    obtain ⟨k', v'⟩ := a
    by_cases h : k' = k <;> simp [dictSet, jlookup, h, ih]

theorem jlookup_dictSet_ne {α : Type} {key k : List Char} (h : key ≠ k) (v : α) :
    ∀ m : List (List Char × α), jlookup k (dictSet key v m) = jlookup k m := by
  intro m
  induction m with
  | nil => simp [dictSet, jlookup, h]
  | cons a rest ih =>
    obtain ⟨k', v'⟩ := a
    by_cases h1 : k' = key
    · subst h1
      have h2 : ¬k' = k := h
      simp [dictSet, jlookup, h2]
    · by_cases h2 : k' = k
      · subst h2
        simp [dictSet, jlookup, h1]
      · simp [dictSet, jlookup, h1, h2, ih]

theorem jlookup_dictSet_isSome {α : Type} (key k : List Char) (v : α)
    (m : List (List Char × α)) (h : (jlookup k m).isSome) :
    (jlookup k (dictSet key v m)).isSome := by
  by_cases hk : key = k
  · subst hk; rw [jlookup_dictSet_self]; rfl
  · rw [jlookup_dictSet_ne hk]; exact h

theorem pyDictGet_ok {d : Json} {k : List Char} {o : Option Json}
    (h : pyDictGet d k = .ok o) : ∃ fs, d = Json.obj fs ∧ jlookup k fs = o := by
  cases d <;> simp [pyDictGet] at h
  exact ⟨_, rfl, h⟩

/-! ## Lemmas: run composition -/

theorem andThen_ok_true {r : StepOut} {f : SessionState → StepOut} (h : r.ok = true) :
    r.andThen f = ⟨(f r.sess).sess, r.calls ++ (f r.sess).calls, (f r.sess).ok⟩ := by
  simp [StepOut.andThen, h]

theorem andThen_ok_false {r : StepOut} {f : SessionState → StepOut} (h : r.ok = false) :
    r.andThen f = r := by
  simp [StepOut.andThen, h]

theorem RespFrame_refl {s : SessionState} {out : StepOut}
    (h : out.sess.responses = s.responses) : RespFrame s out := by
  intro k _; rw [h]

theorem RespFrame_andThen {s0 : SessionState} {r : StepOut} {f : SessionState → StepOut}
    (h1 : RespFrame s0 r) (h2 : RespFrame r.sess (f r.sess)) :
    RespFrame s0 (r.andThen f) := by
  cases hok : r.ok with
  | false => rw [andThen_ok_false hok]; exact h1
  | true =>
    rw [andThen_ok_true hok]
    intro k hk
    have e1 := h1 k hk
    have hk2 : (jlookup k r.sess.responses).isSome := by rw [e1]; exact hk
    have e2 := h2 k hk2
    calc jlookup k (f r.sess).sess.responses = jlookup k r.sess.responses := e2
      _ = jlookup k s0.responses := e1

theorem isSome_of_RespFrame {s0 : SessionState} {out : StepOut}
    (h : RespFrame s0 out) {k : List Char}
    (hk : (jlookup k s0.responses).isSome) :
    (jlookup k out.sess.responses).isSome := by
  rw [h k hk]; exact hk

theorem CallsBudget_andThen {env : Env} {r : StepOut} {f : SessionState → StepOut}
    (h1 : CallsBudget env r) (h2 : CallsBudget env (f r.sess)) :
    CallsBudget env (r.andThen f) := by
  cases hok : r.ok with
  | false => rw [andThen_ok_false hok]; exact h1
  | true =>
    rw [andThen_ok_true hok]
    have hr0 := h1.1 hok
    constructor
    · intro hko
      have hf0 := h2.1 hko
      simp only [List.countP_append]
      omega
    · have hf1 := h2.2
      simp only [List.countP_append]
      omega

theorem FailAbsent_andThen {env : Env} {r : StepOut} {f : SessionState → StepOut}
    (h1 : FailAbsent env r) (h2 : FailAbsent env (f r.sess)) :
    FailAbsent env (r.andThen f) := by
  cases hok : r.ok with
  | false => rw [andThen_ok_false hok]; exact h1
  | true =>
    rw [andThen_ok_true hok]
    intro tag prompt hnc hnch hm hl
    rcases List.mem_append.mp hm with hmm | hmm
    · rcases h1 tag prompt hnc hnch hmm hl with ⟨hf, _⟩
      rw [hok] at hf; cases hf
    · exact h2 tag prompt hnc hnch hmm hl

theorem TagFree_andThen {tag : CallTag} {r : StepOut} {f : SessionState → StepOut}
    (h1 : TagFree tag r) (h2 : TagFree tag (f r.sess)) :
    TagFree tag (r.andThen f) := by
  cases hok : r.ok with
  | false => rw [andThen_ok_false hok]; exact h1
  | true =>
    rw [andThen_ok_true hok]
    intro c hc
    rcases List.mem_append.mp hc with hmm | hmm
    · exact h1 c hmm
    · exact h2 c hmm

theorem TagFree_of_calls_nil {tag : CallTag} {out : StepOut}
    (h : out.calls = []) : TagFree tag out := by
  intro c hc; rw [h] at hc; cases hc

/-! ## Lemmas: the memoized fetch -/

theorem fetch_stage_present {env : Env} {tag : CallTag} {prompt : List Char}
    {s : SessionState} (h : (jlookup (stage_key tag) s.responses).isSome) :
    fetch_stage env tag prompt s = ⟨s, [], true⟩ := by
  obtain ⟨v, hv⟩ := Option.isSome_iff_exists.mp h
  simp [fetch_stage, hv]

theorem fetch_stage_absent_fail {env : Env} {tag : CallTag} {prompt : List Char}
    {s : SessionState} (hj : jlookup (stage_key tag) s.responses = none)
    (hl : env.llm prompt = none) :
    fetch_stage env tag prompt s = ⟨s, [(tag, prompt)], false⟩ := by
  simp [fetch_stage, hj, hl]

theorem fetch_stage_absent_ok {env : Env} {tag : CallTag} {prompt content : List Char}
    {s : SessionState} (hj : jlookup (stage_key tag) s.responses = none)
    (hl : env.llm prompt = some content) :
    fetch_stage env tag prompt s =
      ⟨{ s with responses := dictSet (stage_key tag) (parse_json_response content).value s.responses },
       [(tag, prompt)], true⟩ := by
  simp [fetch_stage, hj, hl]

theorem fetch_RespFrame (env : Env) (tag : CallTag) (prompt : List Char)
    (s : SessionState) : RespFrame s (fetch_stage env tag prompt s) := by
  cases hj : jlookup (stage_key tag) s.responses with
  | some v =>
    rw [fetch_stage_present (by rw [hj]; rfl)]
    intro k _; rfl
  | none =>
    cases hl : env.llm prompt with
    | none => rw [fetch_stage_absent_fail hj hl]; intro k _; rfl
    | some content =>
      rw [fetch_stage_absent_ok hj hl]
      intro k hk
      have hne : stage_key tag ≠ k := by
        intro he
        rw [← he, hj] at hk
        cases hk
      exact jlookup_dictSet_ne hne _ s.responses

theorem fetch_stage_key_present {env : Env} {tag : CallTag} {prompt : List Char}
    {s : SessionState} (h : (fetch_stage env tag prompt s).ok = true) :
    (jlookup (stage_key tag) (fetch_stage env tag prompt s).sess.responses).isSome := by
  cases hj : jlookup (stage_key tag) s.responses with
  | some v =>
    rw [fetch_stage_present (by rw [hj]; rfl)]
    rw [hj]; rfl
  | none =>
    cases hl : env.llm prompt with
    | none => rw [fetch_stage_absent_fail hj hl] at h; cases h
    | some content =>
      rw [fetch_stage_absent_ok hj hl]
      simp [jlookup_dictSet_self]

theorem fetch_levels (env : Env) (tag : CallTag) (prompt : List Char)
    (s : SessionState) :
    (fetch_stage env tag prompt s).sess.prereq_levels = s.prereq_levels := by
  cases hj : jlookup (stage_key tag) s.responses with
  | some v => rw [fetch_stage_present (by rw [hj]; rfl)]
  | none =>
    cases hl : env.llm prompt with
    | none => rw [fetch_stage_absent_fail hj hl]
    | some content => rw [fetch_stage_absent_ok hj hl]

theorem fetch_CallsBudget (env : Env) (tag : CallTag) (prompt : List Char)
    (s : SessionState) : CallsBudget env (fetch_stage env tag prompt s) := by
  cases hj : jlookup (stage_key tag) s.responses with
  | some v =>
    rw [fetch_stage_present (by rw [hj]; rfl)]
    exact ⟨fun _ => rfl, by simp⟩
  | none =>
    cases hl : env.llm prompt with
    | none =>
      rw [fetch_stage_absent_fail hj hl]
      constructor
      · intro h
        cases h
      · simp [List.countP_cons, hl]
    | some content =>
      rw [fetch_stage_absent_ok hj hl]
      constructor <;> intros <;> simp [List.countP_cons, hl]

theorem fetch_FailAbsent (env : Env) (tag : CallTag) (prompt : List Char)
    (s : SessionState) : FailAbsent env (fetch_stage env tag prompt s) := by
  cases hj : jlookup (stage_key tag) s.responses with
  | some v =>
    rw [fetch_stage_present (by rw [hj]; rfl)]
    intro tag' p' _ _ hm _
    cases hm
  | none =>
    cases hl : env.llm prompt with
    | none =>
      rw [fetch_stage_absent_fail hj hl]
      intro tag' p' _ _ hm _
      have hpair : (tag', p') = (tag, prompt) := List.mem_singleton.mp hm
      have ht : tag' = tag := congrArg Prod.fst hpair
      refine ⟨rfl, ?_⟩
      rw [ht]
      exact hj
    | some content =>
      rw [fetch_stage_absent_ok hj hl]
      intro tag' p' _ _ hm hl'
      have hpair : (tag', p') = (tag, prompt) := List.mem_singleton.mp hm
      have hp : p' = prompt := congrArg Prod.snd hpair
      rw [hp, hl] at hl'
      cases hl'

theorem fetch_TagFree_other {env : Env} {tag tag' : CallTag} {prompt : List Char}
    {s : SessionState} (h : tag ≠ tag') :
    TagFree tag' (fetch_stage env tag prompt s) := by
  cases hj : jlookup (stage_key tag) s.responses with
  | some v =>
    rw [fetch_stage_present (by rw [hj]; rfl)]
    intro c hc; cases hc
  | none =>
    cases hl : env.llm prompt with
    | none =>
      rw [fetch_stage_absent_fail hj hl]
      intro c hc
      rw [List.mem_singleton.mp hc]
      exact h
    | some content =>
      rw [fetch_stage_absent_ok hj hl]
      intro c hc
      rw [List.mem_singleton.mp hc]
      exact h

theorem fetch_TagFree_present {env : Env} {tag : CallTag} {prompt : List Char}
    {s : SessionState} (h : (jlookup (stage_key tag) s.responses).isSome) :
    ∀ tag', TagFree tag' (fetch_stage env tag prompt s) := by
  intro tag'
  rw [fetch_stage_present h]
  intro c hc; cases hc

/-! ## Lemmas: the assessment loop -/

theorem assessLoop_cons_good {env : Env} {efs : List (List Char × Json)}
    {t : List Char} {lv : Json} {rest : List Json} {s : SessionState}
    (h1 : jlookup (("topic").toList) efs = some (Json.str t))
    (h2 : jlookup (("level").toList) efs = some lv) :
    assessLoop env (Json.obj efs :: rest) s =
      assessLoop env rest
        { s with prereq_levels := dictSet t (env.level_choice t) s.prereq_levels } := by
  simp only [assessLoop]
  rw [h1, h2]

theorem assessLoop_cons_bad_topic {env : Env} {efs : List (List Char × Json)}
    {rest : List Json} {s : SessionState} {o : Option Json}
    (h1 : jlookup (("topic").toList) efs = o)
    (hbad : ∀ t, o ≠ some (Json.str t)) :
    assessLoop env (Json.obj efs :: rest) s = ⟨s, [], false⟩ := by
  simp only [assessLoop]
  rw [h1]
  cases o with
  | none => rfl
  | some tv =>
    cases tv with
    | str t => exact absurd rfl (hbad t)
    | null => rfl
    | bool b => rfl
    | num n => rfl
    | arr xs => rfl
    | obj fs2 => rfl

theorem assessLoop_cons_bad_level {env : Env} {efs : List (List Char × Json)}
    {t : List Char} {rest : List Json} {s : SessionState}
    (h1 : jlookup (("topic").toList) efs = some (Json.str t))
    (h2 : jlookup (("level").toList) efs = none) :
    assessLoop env (Json.obj efs :: rest) s = ⟨s, [], false⟩ := by
  simp only [assessLoop]
  rw [h1, h2]

theorem assessLoop_cons_not_obj {env : Env} {e : Json} {rest : List Json}
    {s : SessionState} (h : ∀ efs, e ≠ Json.obj efs) :
    assessLoop env (e :: rest) s = ⟨s, [], false⟩ := by
  cases e with
  | obj efs => exact absurd rfl (h efs)
  | null => rfl
  | bool b => rfl
  | num n => rfl
  | str t => rfl
  | arr xs => rfl

theorem assessLoop_shape (env : Env) :
    ∀ (es : List Json) (s : SessionState),
      (assessLoop env es s).calls = [] ∧
      (assessLoop env es s).sess.responses = s.responses ∧
      (assessLoop env es s).sess.messages = s.messages := by
  intro es
  induction es with
  | nil => intro s; exact ⟨rfl, rfl, rfl⟩
  | cons e rest ih =>
    intro s
    cases e with
    | obj efs =>
      cases h1 : jlookup (("topic").toList) efs with
      | some tv =>
        cases tv with
        | str t =>
          cases h2 : jlookup (("level").toList) efs with
          | some lv =>
            rw [assessLoop_cons_good h1 h2]
            exact ih _
          | none => rw [assessLoop_cons_bad_level h1 h2]; exact ⟨rfl, rfl, rfl⟩
        | null => rw [assessLoop_cons_bad_topic h1 (by intro t h; cases h)]; exact ⟨rfl, rfl, rfl⟩
        | bool b => rw [assessLoop_cons_bad_topic h1 (by intro t h; cases h)]; exact ⟨rfl, rfl, rfl⟩
        | num n => rw [assessLoop_cons_bad_topic h1 (by intro t h; cases h)]; exact ⟨rfl, rfl, rfl⟩
        | arr xs => rw [assessLoop_cons_bad_topic h1 (by intro t h; cases h)]; exact ⟨rfl, rfl, rfl⟩
        | obj fs2 => rw [assessLoop_cons_bad_topic h1 (by intro t h; cases h)]; exact ⟨rfl, rfl, rfl⟩
      | none => rw [assessLoop_cons_bad_topic h1 (by intro t h; cases h)]; exact ⟨rfl, rfl, rfl⟩
    | null => rw [assessLoop_cons_not_obj (by intro efs h; cases h)]; exact ⟨rfl, rfl, rfl⟩
    | bool b => rw [assessLoop_cons_not_obj (by intro efs h; cases h)]; exact ⟨rfl, rfl, rfl⟩
    | num n => rw [assessLoop_cons_not_obj (by intro efs h; cases h)]; exact ⟨rfl, rfl, rfl⟩
    | str t => rw [assessLoop_cons_not_obj (by intro efs h; cases h)]; exact ⟨rfl, rfl, rfl⟩
    | arr xs => rw [assessLoop_cons_not_obj (by intro efs h; cases h)]; exact ⟨rfl, rfl, rfl⟩

theorem assessLoop_levels_isSome (env : Env) :
    ∀ (es : List Json) (s : SessionState) (k : List Char),
      (jlookup k s.prereq_levels).isSome →
      (jlookup k (assessLoop env es s).sess.prereq_levels).isSome := by
  intro es
  induction es with
  | nil => intro s k h; exact h
  | cons e rest ih =>
    intro s k h
    cases e with
    | obj efs =>
      cases h1 : jlookup (("topic").toList) efs with
      | some tv =>
        cases tv with
        | str t =>
          cases h2 : jlookup (("level").toList) efs with
          | some lv =>
            rw [assessLoop_cons_good h1 h2]
            exact ih _ k (jlookup_dictSet_isSome _ _ _ _ h)
          | none => rw [assessLoop_cons_bad_level h1 h2]; exact h
        | null => rw [assessLoop_cons_bad_topic h1 (by intro t h'; cases h')]; exact h
        | bool b => rw [assessLoop_cons_bad_topic h1 (by intro t h'; cases h')]; exact h
        | num n => rw [assessLoop_cons_bad_topic h1 (by intro t h'; cases h')]; exact h
        | arr xs => rw [assessLoop_cons_bad_topic h1 (by intro t h'; cases h')]; exact h
        | obj fs2 => rw [assessLoop_cons_bad_topic h1 (by intro t h'; cases h')]; exact h
      | none => rw [assessLoop_cons_bad_topic h1 (by intro t h'; cases h')]; exact h
    | null => rw [assessLoop_cons_not_obj (by intro efs h'; cases h')]; exact h
    | bool b => rw [assessLoop_cons_not_obj (by intro efs h'; cases h')]; exact h
    | num n => rw [assessLoop_cons_not_obj (by intro efs h'; cases h')]; exact h
    | str t => rw [assessLoop_cons_not_obj (by intro efs h'; cases h')]; exact h
    | arr xs => rw [assessLoop_cons_not_obj (by intro efs h'; cases h')]; exact h

theorem assessLoop_rated (env : Env) :
    ∀ (es : List Json) (s : SessionState),
      (assessLoop env es s).ok = true →
      ∀ t ∈ entryTopics es,
        (jlookup t (assessLoop env es s).sess.prereq_levels).isSome := by
  intro es
  induction es with
  | nil =>
    intro s _ t ht
    have hnil : entryTopics ([] : List Json) = [] := rfl
    rw [hnil] at ht
    cases ht
  | cons e rest ih =>
    intro s hok t ht
    cases e with
    | obj efs =>
      cases h1 : jlookup (("topic").toList) efs with
      | some tv =>
        cases tv with
        | str t0 =>
          cases h2 : jlookup (("level").toList) efs with
          | some lv =>
            rw [assessLoop_cons_good h1 h2] at hok ⊢
            have htop : entryTopics (Json.obj efs :: rest) = t0 :: entryTopics rest := by
              simp only [entryTopics, List.filterMap_cons, h1]
            rw [htop] at ht
            rcases List.mem_cons.mp ht with h | h
            · subst h
              exact assessLoop_levels_isSome env rest _ t
                (by rw [jlookup_dictSet_self]; rfl)
            · exact ih _ hok t h
          | none => rw [assessLoop_cons_bad_level h1 h2] at hok; cases hok
        | null => rw [assessLoop_cons_bad_topic h1 (by intro t' h'; cases h')] at hok; cases hok
        | bool b => rw [assessLoop_cons_bad_topic h1 (by intro t' h'; cases h')] at hok; cases hok
        | num n => rw [assessLoop_cons_bad_topic h1 (by intro t' h'; cases h')] at hok; cases hok
        | arr xs => rw [assessLoop_cons_bad_topic h1 (by intro t' h'; cases h')] at hok; cases hok
        | obj fs2 => rw [assessLoop_cons_bad_topic h1 (by intro t' h'; cases h')] at hok; cases hok
      | none => rw [assessLoop_cons_bad_topic h1 (by intro t' h'; cases h')] at hok; cases hok
    | null => rw [assessLoop_cons_not_obj (by intro efs h'; cases h')] at hok; cases hok
    | bool b => rw [assessLoop_cons_not_obj (by intro efs h'; cases h')] at hok; cases hok
    | num n => rw [assessLoop_cons_not_obj (by intro efs h'; cases h')] at hok; cases hok
    | str t1 => rw [assessLoop_cons_not_obj (by intro efs h'; cases h')] at hok; cases hok
    | arr xs => rw [assessLoop_cons_not_obj (by intro efs h'; cases h')] at hok; cases hok

/-! ## Lemmas: the assessment step -/

theorem assess_eq_keyerror {env : Env} {s : SessionState}
    (h1 : jlookup (stage_key .prereq) s.responses = none) :
    assess_prereqs env s = ⟨s, [], false⟩ := by
  simp only [assess_prereqs]
  rw [h1]

theorem assess_eq_geterror {env : Env} {s : SessionState} {data : Json}
    (h1 : jlookup (stage_key .prereq) s.responses = some data)
    (h2 : pyDictGet data (("prerequisites").toList) = .error ()) :
    assess_prereqs env s = ⟨s, [], false⟩ := by
  simp only [assess_prereqs, h1, h2]

theorem assess_eq_missing {env : Env} {s : SessionState} {data : Json}
    (h1 : jlookup (stage_key .prereq) s.responses = some data)
    (h2 : pyDictGet data (("prerequisites").toList) = .ok none) :
    assess_prereqs env s = ⟨s, [], true⟩ := by
  simp only [assess_prereqs, h1, h2]

theorem assess_eq_falsy {env : Env} {s : SessionState} {data v : Json}
    (h1 : jlookup (stage_key .prereq) s.responses = some data)
    (h2 : pyDictGet data (("prerequisites").toList) = .ok (some v))
    (h3 : jsonTruthy v = false) :
    assess_prereqs env s = ⟨s, [], true⟩ := by
  simp only [assess_prereqs, h1, h2, h3]
  rfl

theorem assess_eq_truthy_arr {env : Env} {s : SessionState} {data : Json}
    {entries : List Json}
    (h1 : jlookup (stage_key .prereq) s.responses = some data)
    (h2 : pyDictGet data (("prerequisites").toList) = .ok (some (Json.arr entries)))
    (h3 : jsonTruthy (Json.arr entries) = true) :
    assess_prereqs env s = assessLoop env entries s := by
  simp only [assess_prereqs, h1, h2, h3]
  rfl

theorem assess_eq_truthy_bad {env : Env} {s : SessionState} {data v : Json}
    (h1 : jlookup (stage_key .prereq) s.responses = some data)
    (h2 : pyDictGet data (("prerequisites").toList) = .ok (some v))
    (h3 : jsonTruthy v = true) (hv : ∀ es, v ≠ Json.arr es) :
    assess_prereqs env s = ⟨s, [], false⟩ := by
  cases v with
  | arr es => exact absurd rfl (hv es)
  | null => simp only [assess_prereqs, h1, h2, h3]; rfl
  | bool b => simp only [assess_prereqs, h1, h2, h3]; rfl
  | num n => simp only [assess_prereqs, h1, h2, h3]; rfl
  | str t => simp only [assess_prereqs, h1, h2, h3]; rfl
  | obj fs => simp only [assess_prereqs, h1, h2, h3]; rfl

theorem assess_shape (env : Env) (s : SessionState) :
    (assess_prereqs env s).calls = [] ∧
    (assess_prereqs env s).sess.responses = s.responses ∧
    (assess_prereqs env s).sess.messages = s.messages := by
  cases h1 : jlookup (stage_key .prereq) s.responses with
  | none => rw [assess_eq_keyerror h1]; exact ⟨rfl, rfl, rfl⟩
  | some data =>
    cases h2 : pyDictGet data (("prerequisites").toList) with
    | error u =>
      rw [assess_eq_geterror h1 (by cases u; exact h2)]
      exact ⟨rfl, rfl, rfl⟩
    | ok o =>
      cases o with
      | none => rw [assess_eq_missing h1 h2]; exact ⟨rfl, rfl, rfl⟩
      | some v =>
        cases h3 : jsonTruthy v with
        | false => rw [assess_eq_falsy h1 h2 h3]; exact ⟨rfl, rfl, rfl⟩
        | true =>
          cases v with
          | arr entries =>
            rw [assess_eq_truthy_arr h1 h2 h3]
            exact assessLoop_shape env entries s
          | null =>
            rw [assess_eq_truthy_bad h1 h2 h3 (by intro es h; cases h)]
            exact ⟨rfl, rfl, rfl⟩
          | bool b =>
            rw [assess_eq_truthy_bad h1 h2 h3 (by intro es h; cases h)]
            exact ⟨rfl, rfl, rfl⟩
          | num n =>
            rw [assess_eq_truthy_bad h1 h2 h3 (by intro es h; cases h)]
            exact ⟨rfl, rfl, rfl⟩
          | str t =>
            rw [assess_eq_truthy_bad h1 h2 h3 (by intro es h; cases h)]
            exact ⟨rfl, rfl, rfl⟩
          | obj fs =>
            rw [assess_eq_truthy_bad h1 h2 h3 (by intro es h; cases h)]
            exact ⟨rfl, rfl, rfl⟩

theorem assess_RespFrame (env : Env) (s : SessionState) :
    RespFrame s (assess_prereqs env s) :=
  RespFrame_refl (assess_shape env s).2.1

theorem assess_CallsBudget (env : Env) (s : SessionState) :
    CallsBudget env (assess_prereqs env s) := by
  constructor
  · intro _; rw [(assess_shape env s).1]; rfl
  · rw [(assess_shape env s).1]; simp

theorem assess_FailAbsent (env : Env) (s : SessionState) :
    FailAbsent env (assess_prereqs env s) := by
  intro tag prompt _ _ hm _
  rw [(assess_shape env s).1] at hm
  cases hm

theorem assess_TagFree (env : Env) (s : SessionState) (tag : CallTag) :
    TagFree tag (assess_prereqs env s) :=
  TagFree_of_calls_nil (assess_shape env s).1

theorem prereq_topics_of_lookups {s : SessionState} {fs : List (List Char × Json)}
    {o : Option Json}
    (h1 : jlookup (stage_key .prereq) s.responses = some (Json.obj fs))
    (hfs : jlookup (("prerequisites").toList) fs = o)
    (hbad : ∀ es, o ≠ some (Json.arr es)) :
    prereq_topics s = [] := by
  cases o with
  | none => simp only [prereq_topics, h1, hfs]
  | some v =>
    cases v with
    | arr es => exact absurd rfl (hbad es)
    | null => simp only [prereq_topics, h1, hfs]
    | bool b => simp only [prereq_topics, h1, hfs]
    | num n => simp only [prereq_topics, h1, hfs]
    | str t => simp only [prereq_topics, h1, hfs]
    | obj fs2 => simp only [prereq_topics, h1, hfs]

theorem prereq_topics_of_arr {s : SessionState} {fs : List (List Char × Json)}
    {entries : List Json}
    (h1 : jlookup (stage_key .prereq) s.responses = some (Json.obj fs))
    (hfs : jlookup (("prerequisites").toList) fs = some (Json.arr entries)) :
    prereq_topics s = entryTopics entries := by
  simp only [prereq_topics, h1, hfs]

theorem assess_rated (env : Env) (s : SessionState)
    (hok : (assess_prereqs env s).ok = true) :
    ratedAll (assess_prereqs env s).sess = true := by
  cases h1 : jlookup (stage_key .prereq) s.responses with
  | none => rw [assess_eq_keyerror h1] at hok; cases hok
  | some data =>
    cases h2 : pyDictGet data (("prerequisites").toList) with
    | error u =>
      rw [assess_eq_geterror h1 (by cases u; exact h2)] at hok
      cases hok
    | ok o =>
      obtain ⟨fs, hdata, hfs⟩ := pyDictGet_ok h2
      subst hdata
      cases o with
      | none =>
        rw [assess_eq_missing h1 h2]
        rw [ratedAll, prereq_topics_of_lookups h1 hfs (by intro es h; cases h)]
        rfl
      | some v =>
        cases h3 : jsonTruthy v with
        | true =>
          cases v with
          | arr entries =>
            rw [assess_eq_truthy_arr h1 h2 h3] at hok ⊢
            have hresp := (assessLoop_shape env entries s).2.1
            have h1' : jlookup (stage_key .prereq)
                (assessLoop env entries s).sess.responses = some (Json.obj fs) := by
              rw [hresp]; exact h1
            rw [ratedAll, prereq_topics_of_arr h1' hfs, List.all_eq_true]
            intro t ht
            have := assessLoop_rated env entries s hok t ht
            simpa using this
          | null => simp [jsonTruthy] at h3
          | bool b =>
            rw [assess_eq_truthy_bad h1 h2 h3 (by intro es h; cases h)] at hok
            cases hok
          | num n =>
            rw [assess_eq_truthy_bad h1 h2 h3 (by intro es h; cases h)] at hok
            cases hok
          | str t =>
            rw [assess_eq_truthy_bad h1 h2 h3 (by intro es h; cases h)] at hok
            cases hok
          | obj fs2 =>
            rw [assess_eq_truthy_bad h1 h2 h3 (by intro es h; cases h)] at hok
            cases hok
        | false =>
          rw [assess_eq_falsy h1 h2 h3]
          cases v with
          | arr entries =>
            have hnil : entries = [] := by
              cases entries with
              | nil => rfl
              | cons x xs => simp [jsonTruthy] at h3
            subst hnil
            rw [ratedAll, prereq_topics_of_arr h1 hfs]
            rfl
          | null =>
            rw [ratedAll, prereq_topics_of_lookups h1 hfs (by intro es h; cases h)]
            rfl
          | bool b =>
            rw [ratedAll, prereq_topics_of_lookups h1 hfs (by intro es h; cases h)]
            rfl
          | num n =>
            rw [ratedAll, prereq_topics_of_lookups h1 hfs (by intro es h; cases h)]
            rfl
          | str t =>
            rw [ratedAll, prereq_topics_of_lookups h1 hfs (by intro es h; cases h)]
            rfl
          | obj fs2 =>
            rw [ratedAll, prereq_topics_of_lookups h1 hfs (by intro es h; cases h)]
            rfl

/-! ## Lemmas: the content step, the chat step and the display guards -/

theorem content_eq_fail {env : Env} {sel : List (List Char)} {s : SessionState}
    (hl : env.llm (get_content_prompt sel) = none) :
    content_step env sel s = ⟨s, [(.content, get_content_prompt sel)], false⟩ := by
  simp only [content_step, hl]

theorem content_eq_ok {env : Env} {sel : List (List Char)} {s : SessionState}
    {c : List Char} (hl : env.llm (get_content_prompt sel) = some c) :
    content_step env sel s = ⟨s, [(.content, get_content_prompt sel)], true⟩ := by
  simp only [content_step, hl]

theorem content_sess (env : Env) (sel : List (List Char)) (s : SessionState) :
    (content_step env sel s).sess = s := by
  cases hl : env.llm (get_content_prompt sel) with
  | none => rw [content_eq_fail hl]
  | some c => rw [content_eq_ok hl]

theorem content_RespFrame (env : Env) (sel : List (List Char)) (s : SessionState) :
    RespFrame s (content_step env sel s) :=
  RespFrame_refl (by rw [content_sess])

theorem content_Preserves (env : Env) (sel : List (List Char)) (s : SessionState) :
    PreservesAssessment s (content_step env sel s) :=
  ⟨by rw [content_sess], by rw [content_sess]⟩

theorem content_CallsBudget (env : Env) (sel : List (List Char)) (s : SessionState) :
    CallsBudget env (content_step env sel s) := by
  cases hl : env.llm (get_content_prompt sel) with
  | none =>
    rw [content_eq_fail hl]
    constructor
    · intro h; cases h
    · simp [List.countP_cons, hl]
  | some c =>
    rw [content_eq_ok hl]
    constructor <;> intros <;> simp [List.countP_cons, hl]

theorem content_FailAbsent (env : Env) (sel : List (List Char)) (s : SessionState) :
    FailAbsent env (content_step env sel s) := by
  intro tag prompt hnc _ hm _
  cases hl : env.llm (get_content_prompt sel) with
  | none =>
    rw [content_eq_fail hl] at hm
    exact absurd (congrArg Prod.fst (List.mem_singleton.mp hm)) hnc
  | some c =>
    rw [content_eq_ok hl] at hm
    exact absurd (congrArg Prod.fst (List.mem_singleton.mp hm)) hnc

theorem content_TagFree {tag : CallTag} (h : CallTag.content ≠ tag)
    (env : Env) (sel : List (List Char)) (s : SessionState) :
    TagFree tag (content_step env sel s) := by
  intro c hc
  cases hl : env.llm (get_content_prompt sel) with
  | none =>
    rw [content_eq_fail hl] at hc
    rw [List.mem_singleton.mp hc]
    exact h
  | some cc =>
    rw [content_eq_ok hl] at hc
    rw [List.mem_singleton.mp hc]
    exact h

theorem chatbot_eq_none {env : Env} {topic context : List Char} {s : SessionState}
    (h : env.chat_input = none) :
    display_chatbot env topic context s = ⟨s, [], true⟩ := by
  simp only [display_chatbot, h]

theorem chatbot_eq_empty {env : Env} {topic context q : List Char} {s : SessionState}
    (h : env.chat_input = some q) (hq : q.isEmpty = true) :
    display_chatbot env topic context s = ⟨s, [], true⟩ := by
  simp only [display_chatbot, h, hq]
  rfl

theorem chatbot_eq_fail {env : Env} {topic context q : List Char} {s : SessionState}
    (h : env.chat_input = some q) (hq : q.isEmpty = false)
    (hl : env.llm (get_chatbot_prompt topic context ++ ("\n\nUser: ").toList ++ q) = none) :
    display_chatbot env topic context s =
      ⟨{ s with messages := s.messages ++ [(("user").toList, q)] },
       [(.chat, get_chatbot_prompt topic context ++ ("\n\nUser: ").toList ++ q)], false⟩ := by
  simp only [display_chatbot, h, hq, hl]
  rfl

theorem chatbot_eq_ok {env : Env} {topic context q resp : List Char} {s : SessionState}
    (h : env.chat_input = some q) (hq : q.isEmpty = false)
    (hl : env.llm (get_chatbot_prompt topic context ++ ("\n\nUser: ").toList ++ q) = some resp) :
    display_chatbot env topic context s =
      ⟨{ s with messages := (s.messages ++ [(("user").toList, q)]) ++ [(("assistant").toList, resp)] },
       [(.chat, get_chatbot_prompt topic context ++ ("\n\nUser: ").toList ++ q)], true⟩ := by
  simp only [display_chatbot, h, hq, hl]
  rfl

theorem chatbot_responses (env : Env) (topic context : List Char) (s : SessionState) :
    (display_chatbot env topic context s).sess.responses = s.responses := by
  cases h : env.chat_input with
  | none => rw [chatbot_eq_none h]
  | some q =>
    cases hq : q.isEmpty with
    | true => rw [chatbot_eq_empty h hq]
    | false =>
      cases hl : env.llm (get_chatbot_prompt topic context ++ ("\n\nUser: ").toList ++ q) with
      | none => rw [chatbot_eq_fail h hq hl]
      | some resp => rw [chatbot_eq_ok h hq hl]

theorem chatbot_levels (env : Env) (topic context : List Char) (s : SessionState) :
    (display_chatbot env topic context s).sess.prereq_levels = s.prereq_levels := by
  cases h : env.chat_input with
  | none => rw [chatbot_eq_none h]
  | some q =>
    cases hq : q.isEmpty with
    | true => rw [chatbot_eq_empty h hq]
    | false =>
      cases hl : env.llm (get_chatbot_prompt topic context ++ ("\n\nUser: ").toList ++ q) with
      | none => rw [chatbot_eq_fail h hq hl]
      | some resp => rw [chatbot_eq_ok h hq hl]

theorem chatbot_CallsBudget (env : Env) (topic context : List Char) (s : SessionState) :
    CallsBudget env (display_chatbot env topic context s) := by
  cases h : env.chat_input with
  | none => rw [chatbot_eq_none h]; exact ⟨fun _ => rfl, by simp⟩
  | some q =>
    cases hq : q.isEmpty with
    | true => rw [chatbot_eq_empty h hq]; exact ⟨fun _ => rfl, by simp⟩
    | false =>
      cases hl : env.llm (get_chatbot_prompt topic context ++ ("\n\nUser: ").toList ++ q) with
      | none =>
        rw [chatbot_eq_fail h hq hl]
        have hn : (env.llm (get_chatbot_prompt topic context ++ ("\n\nUser: ").toList ++ q)).isNone = true := by
          rw [hl]; rfl
        constructor
        · intro hh; cases hh
        · simp only [List.countP_cons, List.countP_nil, hn]
          simp
      | some resp =>
        rw [chatbot_eq_ok h hq hl]
        have hn : (env.llm (get_chatbot_prompt topic context ++ ("\n\nUser: ").toList ++ q)).isNone = false := by
          rw [hl]; rfl
        constructor
        · intro _
          simp only [List.countP_cons, List.countP_nil, hn]
          simp
        · simp only [List.countP_cons, List.countP_nil, hn]
          simp

theorem chatbot_FailAbsent (env : Env) (topic context : List Char) (s : SessionState) :
    FailAbsent env (display_chatbot env topic context s) := by
  intro tag prompt _ hnch hm _
  cases h : env.chat_input with
  | none => rw [chatbot_eq_none h] at hm; cases hm
  | some q =>
    cases hq : q.isEmpty with
    | true => rw [chatbot_eq_empty h hq] at hm; cases hm
    | false =>
      cases hl : env.llm (get_chatbot_prompt topic context ++ ("\n\nUser: ").toList ++ q) with
      | none =>
        rw [chatbot_eq_fail h hq hl] at hm
        exact absurd (congrArg Prod.fst (List.mem_singleton.mp hm)) hnch
      | some resp =>
        rw [chatbot_eq_ok h hq hl] at hm
        exact absurd (congrArg Prod.fst (List.mem_singleton.mp hm)) hnch

theorem chatbot_TagFree {tag : CallTag} (h : CallTag.chat ≠ tag)
    (env : Env) (topic context : List Char) (s : SessionState) :
    TagFree tag (display_chatbot env topic context s) := by
  intro c hc
  cases hi : env.chat_input with
  | none => rw [chatbot_eq_none hi] at hc; cases hc
  | some q =>
    cases hq : q.isEmpty with
    | true => rw [chatbot_eq_empty hi hq] at hc; cases hc
    | false =>
      cases hl : env.llm (get_chatbot_prompt topic context ++ ("\n\nUser: ").toList ++ q) with
      | none =>
        rw [chatbot_eq_fail hi hq hl] at hc
        rw [List.mem_singleton.mp hc]
        exact h
      | some resp =>
        rw [chatbot_eq_ok hi hq hl] at hc
        rw [List.mem_singleton.mp hc]
        exact h

theorem guardExcept_cases (d : Except Unit Unit) (k : SessionState → StepOut)
    (s : SessionState) :
    guardExcept d k s = ⟨s, [], false⟩ ∨ guardExcept d k s = k s := by
  cases d with
  | error u => exact Or.inl rfl
  | ok u => exact Or.inr rfl

theorem guardExcept_RespFrame {d : Except Unit Unit} {k : SessionState → StepOut}
    {s : SessionState} (h : RespFrame s (k s)) : RespFrame s (guardExcept d k s) := by
  rcases guardExcept_cases d k s with he | he <;> rw [he]
  · intro k' _; rfl
  · exact h

theorem guardExcept_Preserves {d : Except Unit Unit} {k : SessionState → StepOut}
    {s : SessionState} (h : PreservesAssessment s (k s)) :
    PreservesAssessment s (guardExcept d k s) := by
  rcases guardExcept_cases d k s with he | he <;> rw [he]
  · exact ⟨rfl, rfl⟩
  · exact h

theorem guardExcept_CallsBudget {env : Env} {d : Except Unit Unit}
    {k : SessionState → StepOut} {s : SessionState} (h : CallsBudget env (k s)) :
    CallsBudget env (guardExcept d k s) := by
  rcases guardExcept_cases d k s with he | he <;> rw [he]
  · constructor
    · intro hh; cases hh
    · simp
  · exact h

theorem guardExcept_FailAbsent {env : Env} {d : Except Unit Unit}
    {k : SessionState → StepOut} {s : SessionState} (h : FailAbsent env (k s)) :
    FailAbsent env (guardExcept d k s) := by
  rcases guardExcept_cases d k s with he | he <;> rw [he]
  · intro tag prompt _ _ hm _; cases hm
  · exact h

theorem guardExcept_TagFree {tag : CallTag} {d : Except Unit Unit}
    {k : SessionState → StepOut} {s : SessionState} (h : TagFree tag (k s)) :
    TagFree tag (guardExcept d k s) := by
  rcases guardExcept_cases d k s with he | he <;> rw [he]
  · intro c hc; cases hc
  · exact h

/-! ## Lemmas: the roadmap/content/resources section -/

theorem fetch_Preserves {env : Env} {tag : CallTag} {prompt : List Char}
    {s : SessionState} (h : stage_key tag ≠ stage_key CallTag.prereq) :
    PreservesAssessment s (fetch_stage env tag prompt s) := by
  cases hj : jlookup (stage_key tag) s.responses with
  | some v =>
    rw [fetch_stage_present (by rw [hj]; rfl)]
    exact ⟨rfl, rfl⟩
  | none =>
    cases hl : env.llm prompt with
    | none => rw [fetch_stage_absent_fail hj hl]; exact ⟨rfl, rfl⟩
    | some content =>
      rw [fetch_stage_absent_ok hj hl]
      exact ⟨rfl, jlookup_dictSet_ne h _ s.responses⟩

theorem PreservesAssessment_andThen {s : SessionState} {r : StepOut}
    {f : SessionState → StepOut} (h1 : PreservesAssessment s r)
    (h2 : PreservesAssessment r.sess (f r.sess)) :
    PreservesAssessment s (r.andThen f) := by
  cases hok : r.ok with
  | false => rw [andThen_ok_false hok]; exact h1
  | true =>
    rw [andThen_ok_true hok]
    exact ⟨h2.1.trans h1.1, h2.2.trans h1.2⟩

theorem resources_tail_RespFrame (env : Env) (topic : List Char)
    (sel : List (List Char)) (s : SessionState) :
    RespFrame s (resources_tail env topic sel s) := by
  unfold resources_tail
  apply RespFrame_andThen (fetch_RespFrame env .resources _ s)
  apply guardExcept_RespFrame
  intro k _; rfl

theorem resources_tail_Preserves (env : Env) (topic : List Char)
    (sel : List (List Char)) (s : SessionState) :
    PreservesAssessment s (resources_tail env topic sel s) := by
  unfold resources_tail
  apply PreservesAssessment_andThen (fetch_Preserves (by decide))
  apply guardExcept_Preserves
  exact ⟨rfl, rfl⟩

theorem resources_tail_CallsBudget (env : Env) (topic : List Char)
    (sel : List (List Char)) (s : SessionState) :
    CallsBudget env (resources_tail env topic sel s) := by
  unfold resources_tail
  apply CallsBudget_andThen (fetch_CallsBudget env .resources _ s)
  apply guardExcept_CallsBudget
  exact ⟨fun _ => rfl, by simp⟩

theorem resources_tail_FailAbsent (env : Env) (topic : List Char)
    (sel : List (List Char)) (s : SessionState) :
    FailAbsent env (resources_tail env topic sel s) := by
  unfold resources_tail
  apply FailAbsent_andThen (fetch_FailAbsent env .resources _ s)
  apply guardExcept_FailAbsent
  intro tag prompt _ _ hm _; cases hm

theorem resources_tail_TagFree_of_ne {tag : CallTag} (h : CallTag.resources ≠ tag)
    (env : Env) (topic : List Char) (sel : List (List Char)) (s : SessionState) :
    TagFree tag (resources_tail env topic sel s) := by
  unfold resources_tail
  apply TagFree_andThen (fetch_TagFree_other h)
  apply guardExcept_TagFree
  intro c hc; cases hc

theorem resources_tail_TagFree_present {env : Env} {topic : List Char}
    {sel : List (List Char)} {s : SessionState}
    (h : (jlookup (stage_key .resources) s.responses).isSome) (tag : CallTag) :
    TagFree tag (resources_tail env topic sel s) := by
  unfold resources_tail
  apply TagFree_andThen (fetch_TagFree_present h tag)
  apply guardExcept_TagFree
  intro c hc; cases hc

theorem content_tail_RespFrame (env : Env) (topic : List Char)
    (sel : List (List Char)) (s : SessionState) :
    RespFrame s (content_tail env topic sel s) := by
  unfold content_tail
  exact RespFrame_andThen (content_RespFrame env sel s) (resources_tail_RespFrame env topic sel _)

theorem content_tail_Preserves (env : Env) (topic : List Char)
    (sel : List (List Char)) (s : SessionState) :
    PreservesAssessment s (content_tail env topic sel s) := by
  unfold content_tail
  exact PreservesAssessment_andThen (content_Preserves env sel s)
    (resources_tail_Preserves env topic sel _)

theorem content_tail_CallsBudget (env : Env) (topic : List Char)
    (sel : List (List Char)) (s : SessionState) :
    CallsBudget env (content_tail env topic sel s) := by
  unfold content_tail
  exact CallsBudget_andThen (content_CallsBudget env sel s)
    (resources_tail_CallsBudget env topic sel _)

theorem content_tail_FailAbsent (env : Env) (topic : List Char)
    (sel : List (List Char)) (s : SessionState) :
    FailAbsent env (content_tail env topic sel s) := by
  unfold content_tail
  exact FailAbsent_andThen (content_FailAbsent env sel s)
    (resources_tail_FailAbsent env topic sel _)

theorem content_tail_TagFree_of_ne {tag : CallTag} (h1 : CallTag.content ≠ tag)
    (h2 : CallTag.resources ≠ tag) (env : Env) (topic : List Char)
    (sel : List (List Char)) (s : SessionState) :
    TagFree tag (content_tail env topic sel s) := by
  unfold content_tail
  exact TagFree_andThen (content_TagFree h1 env sel s)
    (resources_tail_TagFree_of_ne h2 env topic sel _)

theorem content_tail_TagFree_resources {env : Env} {topic : List Char}
    {sel : List (List Char)} {s : SessionState}
    (h : (jlookup (stage_key .resources) s.responses).isSome) :
    TagFree .resources (content_tail env topic sel s) := by
  unfold content_tail
  apply TagFree_andThen (content_TagFree (by decide) env sel s)
  apply resources_tail_TagFree_present (by rw [content_sess]; exact h)

theorem roadmap_section_RespFrame (env : Env) (topic : List Char)
    (sel : List (List Char)) (s : SessionState) :
    RespFrame s (roadmap_section env topic sel s) := by
  unfold roadmap_section
  apply RespFrame_andThen (fetch_RespFrame env .roadmap _ s)
  apply guardExcept_RespFrame
  exact content_tail_RespFrame env topic sel _

theorem roadmap_section_Preserves (env : Env) (topic : List Char)
    (sel : List (List Char)) (s : SessionState) :
    PreservesAssessment s (roadmap_section env topic sel s) := by
  unfold roadmap_section
  apply PreservesAssessment_andThen (fetch_Preserves (by decide))
  apply guardExcept_Preserves
  exact content_tail_Preserves env topic sel _

theorem roadmap_section_CallsBudget (env : Env) (topic : List Char)
    (sel : List (List Char)) (s : SessionState) :
    CallsBudget env (roadmap_section env topic sel s) := by
  unfold roadmap_section
  apply CallsBudget_andThen (fetch_CallsBudget env .roadmap _ s)
  apply guardExcept_CallsBudget
  exact content_tail_CallsBudget env topic sel _

theorem roadmap_section_FailAbsent (env : Env) (topic : List Char)
    (sel : List (List Char)) (s : SessionState) :
    FailAbsent env (roadmap_section env topic sel s) := by
  unfold roadmap_section
  apply FailAbsent_andThen (fetch_FailAbsent env .roadmap _ s)
  apply guardExcept_FailAbsent
  exact content_tail_FailAbsent env topic sel _

theorem roadmap_section_TagFree_of_ne {tag : CallTag} (h1 : CallTag.roadmap ≠ tag)
    (h2 : CallTag.content ≠ tag) (h3 : CallTag.resources ≠ tag)
    (env : Env) (topic : List Char) (sel : List (List Char)) (s : SessionState) :
    TagFree tag (roadmap_section env topic sel s) := by
  unfold roadmap_section
  apply TagFree_andThen (fetch_TagFree_other h1)
  apply guardExcept_TagFree
  exact content_tail_TagFree_of_ne h2 h3 env topic sel _

theorem roadmap_section_TagFree_roadmap {env : Env} {topic : List Char}
    {sel : List (List Char)} {s : SessionState}
    (h : (jlookup (stage_key .roadmap) s.responses).isSome) :
    TagFree .roadmap (roadmap_section env topic sel s) := by
  unfold roadmap_section
  apply TagFree_andThen (fetch_TagFree_present h .roadmap)
  apply guardExcept_TagFree
  exact content_tail_TagFree_of_ne (by decide) (by decide) env topic sel _

theorem roadmap_section_TagFree_resources {env : Env} {topic : List Char}
    {sel : List (List Char)} {s : SessionState}
    (h : (jlookup (stage_key .resources) s.responses).isSome) :
    TagFree .resources (roadmap_section env topic sel s) := by
  unfold roadmap_section
  apply TagFree_andThen (fetch_TagFree_other (by decide))
  apply guardExcept_TagFree
  apply content_tail_TagFree_resources
  exact isSome_of_RespFrame (fetch_RespFrame env .roadmap _ s) h

/-! ## Lemmas: the subtopic section and the chat section -/

theorem subtop_section_cases (env : Env) (topic : List Char) (s : SessionState) :
    subtop_section env topic s = ⟨s, [], false⟩ ∨
    subtop_section env topic s = ⟨s, [], true⟩ ∨
    ∃ sel, subtop_section env topic s = roadmap_section env topic sel s := by
  unfold subtop_section
  cases select_subtopics env s with
  | error u => exact Or.inl rfl
  | ok o =>
    cases o with
    | none => exact Or.inr (Or.inl rfl)
    | some sel =>
      cases hsel : sel.isEmpty with
      | true =>
        refine Or.inr (Or.inl ?_)
        show (if sel.isEmpty = true then (⟨s, [], true⟩ : StepOut)
          else roadmap_section env topic sel s) = ⟨s, [], true⟩
        rw [hsel]
        rfl
      | false =>
        refine Or.inr (Or.inr ⟨sel, ?_⟩)
        show (if sel.isEmpty = true then (⟨s, [], true⟩ : StepOut)
          else roadmap_section env topic sel s) = roadmap_section env topic sel s
        rw [hsel]
        rfl

theorem subtop_section_RespFrame (env : Env) (topic : List Char) (s : SessionState) :
    RespFrame s (subtop_section env topic s) := by
  rcases subtop_section_cases env topic s with he | he | ⟨sel, he⟩ <;> rw [he]
  · intro k _; rfl
  · intro k _; rfl
  · exact roadmap_section_RespFrame env topic sel s

theorem subtop_section_Preserves (env : Env) (topic : List Char) (s : SessionState) :
    PreservesAssessment s (subtop_section env topic s) := by
  rcases subtop_section_cases env topic s with he | he | ⟨sel, he⟩ <;> rw [he]
  · exact ⟨rfl, rfl⟩
  · exact ⟨rfl, rfl⟩
  · exact roadmap_section_Preserves env topic sel s

theorem subtop_section_CallsBudget (env : Env) (topic : List Char) (s : SessionState) :
    CallsBudget env (subtop_section env topic s) := by
  rcases subtop_section_cases env topic s with he | he | ⟨sel, he⟩ <;> rw [he]
  · exact ⟨fun h => Bool.noConfusion h, by simp⟩
  · exact ⟨fun _ => rfl, by simp⟩
  · exact roadmap_section_CallsBudget env topic sel s

theorem subtop_section_FailAbsent (env : Env) (topic : List Char) (s : SessionState) :
    FailAbsent env (subtop_section env topic s) := by
  rcases subtop_section_cases env topic s with he | he | ⟨sel, he⟩ <;> rw [he]
  · intro tag prompt _ _ hm _; cases hm
  · intro tag prompt _ _ hm _; cases hm
  · exact roadmap_section_FailAbsent env topic sel s

theorem subtop_section_TagFree_of_ne {tag : CallTag} (h1 : CallTag.roadmap ≠ tag)
    (h2 : CallTag.content ≠ tag) (h3 : CallTag.resources ≠ tag)
    (env : Env) (topic : List Char) (s : SessionState) :
    TagFree tag (subtop_section env topic s) := by
  rcases subtop_section_cases env topic s with he | he | ⟨sel, he⟩ <;> rw [he]
  · intro c hc; cases hc
  · intro c hc; cases hc
  · exact roadmap_section_TagFree_of_ne h1 h2 h3 env topic sel s

theorem subtop_section_TagFree_roadmap {env : Env} {topic : List Char}
    {s : SessionState} (h : (jlookup (stage_key .roadmap) s.responses).isSome) :
    TagFree .roadmap (subtop_section env topic s) := by
  rcases subtop_section_cases env topic s with he | he | ⟨sel, he⟩ <;> rw [he]
  · intro c hc; cases hc
  · intro c hc; cases hc
  · exact roadmap_section_TagFree_roadmap h

theorem subtop_section_TagFree_resources {env : Env} {topic : List Char}
    {s : SessionState} (h : (jlookup (stage_key .resources) s.responses).isSome) :
    TagFree .resources (subtop_section env topic s) := by
  rcases subtop_section_cases env topic s with he | he | ⟨sel, he⟩ <;> rw [he]
  · intro c hc; cases hc
  · intro c hc; cases hc
  · exact roadmap_section_TagFree_resources h

theorem chat_section_cases (env : Env) (topic : List Char) (s : SessionState) :
    chat_section env topic s = ⟨s, [], true⟩ ∨
    chat_section env topic s =
      display_chatbot env topic (build_context s.prereq_levels) s := by
  unfold chat_section
  cases hg : s.prereq_levels.any (fun kv => !kv.1.isEmpty) with
  | false => exact Or.inl rfl
  | true => exact Or.inr rfl

theorem chat_section_RespFrame (env : Env) (topic : List Char) (s : SessionState) :
    RespFrame s (chat_section env topic s) := by
  rcases chat_section_cases env topic s with he | he <;> rw [he]
  · intro k _; rfl
  · exact RespFrame_refl (chatbot_responses env topic _ s)

theorem chat_section_Preserves (env : Env) (topic : List Char) (s : SessionState) :
    PreservesAssessment s (chat_section env topic s) := by
  rcases chat_section_cases env topic s with he | he <;> rw [he]
  · exact ⟨rfl, rfl⟩
  · exact ⟨chatbot_levels env topic _ s, by rw [chatbot_responses env topic _ s]⟩

theorem chat_section_CallsBudget (env : Env) (topic : List Char) (s : SessionState) :
    CallsBudget env (chat_section env topic s) := by
  rcases chat_section_cases env topic s with he | he <;> rw [he]
  · exact ⟨fun _ => rfl, by simp⟩
  · exact chatbot_CallsBudget env topic _ s

theorem chat_section_FailAbsent (env : Env) (topic : List Char) (s : SessionState) :
    FailAbsent env (chat_section env topic s) := by
  rcases chat_section_cases env topic s with he | he <;> rw [he]
  · intro tag prompt _ _ hm _; cases hm
  · exact chatbot_FailAbsent env topic _ s

theorem chat_section_TagFree {tag : CallTag} (h : CallTag.chat ≠ tag)
    (env : Env) (topic : List Char) (s : SessionState) :
    TagFree tag (chat_section env topic s) := by
  rcases chat_section_cases env topic s with he | he <;> rw [he]
  · intro c hc; cases hc
  · exact chatbot_TagFree h env topic _ s

/-- Witness for C8: the fenced and unwrapped `subtopics` responses
normalize to the same decoded object. -/
theorem C8_fenced_equals_unwrapped_witness :
    parse_json_response (fenced ('{' :: (("\"subtopics\": [\"a\"]").toList) ++ ['}'])) =
      parse_json_response ('{' :: (("\"subtopics\": [\"a\"]").toList) ++ ['}']) ∧
    parse_json_response ('{' :: (("\"subtopics\": [\"a\"]").toList) ++ ['}']) =
      ⟨Json.obj [((("subtopics").toList), Json.arr [Json.str (("a").toList)])], false⟩ :=
  C8_fenced_equals_unwrapped (("\"subtopics\": [\"a\"]").toList)
    (Json.obj [((("subtopics").toList), Json.arr [Json.str (("a").toList)])]) (by rfl)

/-! ## Lemmas: the whole run -/

theorem run_main_empty {env : Env} {topic : List Char} {s0 : SessionState}
    (h : topic.isEmpty = true) : run_main env topic s0 = ⟨s0, [], true⟩ := by
  simp only [run_main, h]
  rfl

theorem run_main_nonempty {env : Env} {topic : List Char} {s0 : SessionState}
    (h : topic.isEmpty = false) :
    run_main env topic s0 =
      ((((fetch_stage env .prereq (get_prerequisites_prompt topic) s0).andThen
          (assess_prereqs env)).andThen
          (fetch_stage env .subtop (get_subtopics_prompt topic))).andThen
          (subtop_section env topic)).andThen
          (chat_section env topic) := by
  simp only [run_main, h]
  rfl

theorem run_RespFrame (env : Env) (topic : List Char) (s0 : SessionState) :
    RespFrame s0 (run_main env topic s0) := by
  cases ht : topic.isEmpty with
  | true => rw [run_main_empty ht]; intro k _; rfl
  | false =>
    rw [run_main_nonempty ht]
    exact RespFrame_andThen
      (RespFrame_andThen
        (RespFrame_andThen
          (RespFrame_andThen (fetch_RespFrame env .prereq _ s0) (assess_RespFrame env _))
          (fetch_RespFrame env .subtop _ _))
        (subtop_section_RespFrame env topic _))
      (chat_section_RespFrame env topic _)

theorem run_CallsBudget (env : Env) (topic : List Char) (s0 : SessionState) :
    CallsBudget env (run_main env topic s0) := by
  cases ht : topic.isEmpty with
  | true => rw [run_main_empty ht]; exact ⟨fun _ => rfl, by simp⟩
  | false =>
    rw [run_main_nonempty ht]
    exact CallsBudget_andThen
      (CallsBudget_andThen
        (CallsBudget_andThen
          (CallsBudget_andThen (fetch_CallsBudget env .prereq _ s0) (assess_CallsBudget env _))
          (fetch_CallsBudget env .subtop _ _))
        (subtop_section_CallsBudget env topic _))
      (chat_section_CallsBudget env topic _)

theorem run_FailAbsent (env : Env) (topic : List Char) (s0 : SessionState) :
    FailAbsent env (run_main env topic s0) := by
  cases ht : topic.isEmpty with
  | true =>
    rw [run_main_empty ht]
    intro tag prompt _ _ hm _
    cases hm
  | false =>
    rw [run_main_nonempty ht]
    exact FailAbsent_andThen
      (FailAbsent_andThen
        (FailAbsent_andThen
          (FailAbsent_andThen (fetch_FailAbsent env .prereq _ s0) (assess_FailAbsent env _))
          (fetch_FailAbsent env .subtop _ _))
        (subtop_section_FailAbsent env topic _))
      (chat_section_FailAbsent env topic _)

theorem ratedAll_of_preserved {s : SessionState} {out : StepOut}
    (h : PreservesAssessment s out) (hr : ratedAll s = true) :
    ratedAll out.sess = true := by
  have hp : prereq_topics out.sess = prereq_topics s := by
    unfold prereq_topics
    rw [h.2]
  unfold ratedAll at hr ⊢
  rw [hp, h.1]
  exact hr

theorem all_not_tag_of_TagFree {tag : CallTag} {out : StepOut}
    (h : TagFree tag out) :
    out.calls.all (fun c => !(c.1 == tag)) = true := by
  rw [List.all_eq_true]
  intro c hc
  simpa using h c hc

/-! ## C9: invocation failure surfaces an error and stores nothing -/

/-- C9: when the LLM raises on a call the run issued, the run ends in the
user-visible error handler, exactly one call failed (the failing call
stops the run: no automatic retry in the run), every previously stored
stage value is untouched, and for the four memoized stages the failed
stage's key is absent from the store afterwards. -/
theorem C9_invocation_failure_frame :
    ∀ (env : Env) (topic : List Char) (s0 : SessionState) (tag : CallTag)
      (prompt : List Char),
      (tag, prompt) ∈ (run_main env topic s0).calls →
      env.llm prompt = none →
      (run_main env topic s0).ok = false ∧
      (run_main env topic s0).calls.countP (fun c => (env.llm c.2).isNone) = 1 ∧
      (∀ k, (jlookup k s0.responses).isSome →
        jlookup k (run_main env topic s0).sess.responses = jlookup k s0.responses) ∧
      ((tag = CallTag.prereq ∨ tag = CallTag.subtop ∨
        tag = CallTag.roadmap ∨ tag = CallTag.resources) →
        jlookup (stage_key tag) (run_main env topic s0).sess.responses = none) := by
  intro env topic s0 tag prompt hm hl
  have hbudget := run_CallsBudget env topic s0
  have hpos : 0 < (run_main env topic s0).calls.countP (fun c => (env.llm c.2).isNone) := by
    refine List.countP_pos_iff.mpr ⟨(tag, prompt), hm, ?_⟩
    simp [hl]
  have hok : (run_main env topic s0).ok = false := by
    cases hok2 : (run_main env topic s0).ok with
    | false => rfl
    | true =>
      have := hbudget.1 hok2
      omega
  refine ⟨hok, ?_, run_RespFrame env topic s0, ?_⟩
  · have := hbudget.2
    omega
  · intro hfour
    have hnc : tag ≠ CallTag.content := by
      rcases hfour with h | h | h | h <;> subst h <;> decide
    have hnch : tag ≠ CallTag.chat := by
      rcases hfour with h | h | h | h <;> subst h <;> decide
    exact (run_FailAbsent env topic s0 tag prompt hnc hnch hm hl).2

/-- Witness for C9: with an always-raising LLM and a fresh session, the
prerequisites call fails; the run errors, no stage data appears. -/
theorem C9_invocation_failure_frame_witness :
    (run_main envAllFail (("t").toList) sessEmpty).ok = false ∧
    (run_main envAllFail (("t").toList) sessEmpty).calls.countP
      (fun c => ((envAllFail.llm c.2)).isNone) = 1 ∧
    (∀ k, (jlookup k sessEmpty.responses).isSome →
      jlookup k (run_main envAllFail (("t").toList) sessEmpty).sess.responses =
        jlookup k sessEmpty.responses) ∧
    ((CallTag.prereq = CallTag.prereq ∨ CallTag.prereq = CallTag.subtop ∨
      CallTag.prereq = CallTag.roadmap ∨ CallTag.prereq = CallTag.resources) →
      jlookup (stage_key CallTag.prereq)
        (run_main envAllFail (("t").toList) sessEmpty).sess.responses = none) :=
  C9_invocation_failure_frame envAllFail (("t").toList) sessEmpty CallTag.prereq
    (get_prerequisites_prompt (("t").toList)) (by decide) (by rfl)

/-! ## C4: subtopic generation only after a rating for every prerequisite -/

/-- C4: whenever a run issues the subtopic-generation call, every
prerequisite name the stored prerequisites response returns has a
proficiency entry in the session afterwards — the assessment loop records
a level for every returned prerequisite (the selectboxes always hold a
value) before the subtopics fetch runs, and nothing later removes them. -/
theorem C4_subtopics_only_after_full_assessment :
    ∀ (env : Env) (topic : List Char) (s0 : SessionState),
      (run_main env topic s0).calls.countP (fun c => c.1 == CallTag.subtop) ≠ 0 →
      ratedAll (run_main env topic s0).sess = true := by
  intro env topic s0 hcall
  cases ht : topic.isEmpty with
  | true =>
    rw [run_main_empty ht] at hcall
    exact absurd rfl hcall
  | false =>
    rw [run_main_nonempty ht] at hcall ⊢
    cases h1 : (fetch_stage env .prereq (get_prerequisites_prompt topic) s0).ok with
    | false =>
      exfalso
      rw [andThen_ok_false h1, andThen_ok_false h1, andThen_ok_false h1,
        andThen_ok_false h1] at hcall
      apply hcall
      rw [List.countP_eq_zero]
      intro c hc
      have hne := fetch_TagFree_other
        (show CallTag.prereq ≠ CallTag.subtop by decide) c hc
      simpa using hne
    | true =>
      have hR2 : (fetch_stage env .prereq (get_prerequisites_prompt topic) s0).andThen
          (assess_prereqs env) =
          ⟨(assess_prereqs env (fetch_stage env .prereq (get_prerequisites_prompt topic) s0).sess).sess,
           (fetch_stage env .prereq (get_prerequisites_prompt topic) s0).calls ++
             (assess_prereqs env (fetch_stage env .prereq (get_prerequisites_prompt topic) s0).sess).calls,
           (assess_prereqs env (fetch_stage env .prereq (get_prerequisites_prompt topic) s0).sess).ok⟩ :=
        andThen_ok_true h1
      cases h2 : (assess_prereqs env (fetch_stage env .prereq (get_prerequisites_prompt topic) s0).sess).ok with
      | false =>
        exfalso
        have h2' : ((fetch_stage env .prereq (get_prerequisites_prompt topic) s0).andThen
            (assess_prereqs env)).ok = false := by
          rw [hR2]
          exact h2
        rw [andThen_ok_false h2', andThen_ok_false h2', andThen_ok_false h2'] at hcall
        apply hcall
        rw [List.countP_eq_zero]
        intro c hc
        rw [hR2] at hc
        rcases List.mem_append.mp hc with hcc | hcc
        · have hne := fetch_TagFree_other
            (show CallTag.prereq ≠ CallTag.subtop by decide) c hcc
          simpa using hne
        · have hne := assess_TagFree env
            (fetch_stage env .prereq (get_prerequisites_prompt topic) s0).sess
            CallTag.subtop c hcc
          simpa using hne
      | true =>
        have hrated : ratedAll (assess_prereqs env
            (fetch_stage env .prereq (get_prerequisites_prompt topic) s0).sess).sess = true :=
          assess_rated env _ h2
        have hP : PreservesAssessment
            (assess_prereqs env (fetch_stage env .prereq (get_prerequisites_prompt topic) s0).sess).sess
            (((((fetch_stage env .prereq (get_prerequisites_prompt topic) s0).andThen
                (assess_prereqs env)).andThen
                (fetch_stage env .subtop (get_subtopics_prompt topic))).andThen
                (subtop_section env topic)).andThen
                (chat_section env topic)) := by
          rw [hR2]
          exact PreservesAssessment_andThen
            (PreservesAssessment_andThen
              (PreservesAssessment_andThen ⟨rfl, rfl⟩ (fetch_Preserves (by decide)))
              (subtop_section_Preserves env topic _))
            (chat_section_Preserves env topic _)
        exact ratedAll_of_preserved hP hrated

/-- Witness for C4: a run whose prerequisites response returns
`Arithmetic` proceeds to the subtopics call, and the session then holds a
rating for it. -/
theorem C4_subtopics_only_after_full_assessment_witness :
    (run_main envC4 (("graphs").toList) sessEmpty).calls.countP
      (fun c => c.1 == CallTag.subtop) ≠ 0 ∧
    ratedAll (run_main envC4 (("graphs").toList) sessEmpty).sess = true :=
  ⟨by decide,
   C4_subtopics_only_after_full_assessment envC4 (("graphs").toList) sessEmpty (by decide)⟩

/-! ## C1: memoization — and the content stage's missing memoization -/

/-- C1 counterexample: with the same environment, topic and inputs, a
first run on a fresh session issues all five generation calls, and a
second run — every memoized stage's data now present — still issues the
content call: the content stage is generated again on every rerun. -/
theorem C1_cex_content_not_memoized :
    (run_main envC1 topicC1 sessEmpty).calls.map Prod.fst =
      [CallTag.prereq, CallTag.subtop, CallTag.roadmap, CallTag.content, CallTag.resources] ∧
    (run_main envC1 topicC1 (run_main envC1 topicC1 sessEmpty).sess).calls.map Prod.fst =
      [CallTag.content] :=
  ⟨by rfl, by rfl⟩

/-- C1 as amended: the prerequisites, subtopics, roadmap and resources
stages are memoized — once a stage's data is present in the session's
responses store, no run issues that stage's call again — but the content
call is not memoized and is re-issued by every rerun that reaches it. -/
theorem C1_amended_memoization_except_content :
    ∀ (env : Env) (topic : List Char) (s0 : SessionState) (tag : CallTag),
      (tag = CallTag.prereq ∨ tag = CallTag.subtop ∨
        tag = CallTag.roadmap ∨ tag = CallTag.resources) →
      (jlookup (stage_key tag) s0.responses).isSome →
      (run_main env topic s0).calls.all (fun c => !(c.1 == tag)) = true := by
  intro env topic s0 tag hfour hpresent
  apply all_not_tag_of_TagFree
  cases ht : topic.isEmpty with
  | true =>
    rw [run_main_empty ht]
    intro c hc
    cases hc
  | false =>
    rw [run_main_nonempty ht]
    rcases hfour with h | h | h | h <;> subst h
    · exact TagFree_andThen
        (TagFree_andThen
          (TagFree_andThen
            (TagFree_andThen (fetch_TagFree_present hpresent _) (assess_TagFree env _ _))
            (fetch_TagFree_other (by decide)))
          (subtop_section_TagFree_of_ne (by decide) (by decide) (by decide) env topic _))
        (chat_section_TagFree (by decide) env topic _)
    · exact TagFree_andThen
        (TagFree_andThen
          (TagFree_andThen
            (TagFree_andThen (fetch_TagFree_other (by decide)) (assess_TagFree env _ _))
            (fetch_TagFree_present
              (isSome_of_RespFrame
                (RespFrame_andThen (fetch_RespFrame env .prereq _ s0) (assess_RespFrame env _))
                hpresent) _))
          (subtop_section_TagFree_of_ne (by decide) (by decide) (by decide) env topic _))
        (chat_section_TagFree (by decide) env topic _)
    · exact TagFree_andThen
        (TagFree_andThen
          (TagFree_andThen
            (TagFree_andThen (fetch_TagFree_other (by decide)) (assess_TagFree env _ _))
            (fetch_TagFree_other (by decide)))
          (subtop_section_TagFree_roadmap
            (isSome_of_RespFrame
              (RespFrame_andThen
                (RespFrame_andThen (fetch_RespFrame env .prereq _ s0) (assess_RespFrame env _))
                (fetch_RespFrame env .subtop _ _))
              hpresent)))
        (chat_section_TagFree (by decide) env topic _)
    · exact TagFree_andThen
        (TagFree_andThen
          (TagFree_andThen
            (TagFree_andThen (fetch_TagFree_other (by decide)) (assess_TagFree env _ _))
            (fetch_TagFree_other (by decide)))
          (subtop_section_TagFree_resources
            (isSome_of_RespFrame
              (RespFrame_andThen
                (RespFrame_andThen (fetch_RespFrame env .prereq _ s0) (assess_RespFrame env _))
                (fetch_RespFrame env .subtop _ _))
              hpresent)))
        (chat_section_TagFree (by decide) env topic _)

/-- Witness for C1 as amended: with roadmap data already stored and an
always-raising LLM, no roadmap call is issued. -/
theorem C1_amended_memoization_except_content_witness :
    (run_main envAllFail (("t").toList) sessRoadmapStored).calls.all
      (fun c => !(c.1 == CallTag.roadmap)) = true :=
  C1_amended_memoization_except_content envAllFail (("t").toList) sessRoadmapStored
    CallTag.roadmap (by decide) (by decide)

/-! ## C5: what the chat prompt is built from -/

theorem chat_section_eq_open {env : Env} {topic : List Char} {s : SessionState}
    (hg : s.prereq_levels.any (fun kv => !kv.1.isEmpty) = true) :
    chat_section env topic s =
      display_chatbot env topic (build_context s.prereq_levels) s := by
  unfold chat_section
  rw [hg]
  rfl

/-- C5 counterexample: in a session whose transcript holds the user turn
`ABCD` and whose store holds roadmap data mentioning `ZZZZ`, the one chat
call's prompt contains neither — the transcript and the accumulated stage
data are not part of the prompt. -/
theorem C5_cex_prompt_excludes_transcript :
    (run_main envC5 topicC5 sessC5).calls.map Prod.fst = [CallTag.chat] ∧
    (run_main envC5 topicC5 sessC5).calls.all
      (fun c => !(containsSub (("ABCD").toList) c.2)) = true ∧
    (run_main envC5 topicC5 sessC5).calls.all
      (fun c => !(containsSub (("ZZZZ").toList) c.2)) = true :=
  ⟨by rfl, by rfl, by rfl⟩

/-- C5 as amended: the chat prompt is exactly the chat template applied
to the topic and a context holding only the user's prerequisite
proficiency levels, followed by the new question — independent of the
transcript and of all stored stage data. -/
theorem C5_amended_chat_prompt_contents :
    ∀ (env : Env) (topic : List Char) (s : SessionState) (q : List Char),
      env.chat_input = some q →
      q.isEmpty = false →
      s.prereq_levels.any (fun kv => !kv.1.isEmpty) = true →
      (chat_section env topic s).calls.map Prod.snd =
        [get_chatbot_prompt topic (build_context s.prereq_levels) ++
          ("\n\nUser: ").toList ++ q] := by
  intro env topic s q h hq hg
  rw [chat_section_eq_open hg]
  cases hl : env.llm (get_chatbot_prompt topic (build_context s.prereq_levels) ++
      ("\n\nUser: ").toList ++ q) with
  | none => rw [chatbot_eq_fail h hq hl]; rfl
  | some resp => rw [chatbot_eq_ok h hq hl]; rfl

/-- Witness for C5 as amended: the concrete chat turn's prompt is the
template over the topic, the levels context and the question alone. -/
theorem C5_amended_chat_prompt_contents_witness :
    (chat_section envChatOnly (("T2").toList) sessOneLevel).calls.map Prod.snd =
      [get_chatbot_prompt (("T2").toList) (build_context sessOneLevel.prereq_levels) ++
        ("\n\nUser: ").toList ++ (("Q?").toList)] :=
  C5_amended_chat_prompt_contents envChatOnly (("T2").toList) sessOneLevel
    (("Q?").toList) (by rfl) (by rfl) (by rfl)

end InfiLib
